import Mathlib

/-!
Verification of the MiNOS transactional update engine.

This file shallowly embeds the two state machines of the repository:

* the firmware image receiver (`src/components/mn_ota/MnOta.cpp`,
  `MnOta::handle_upload` and `looks_like_esp_idf_image`), and
* the credential commit controller (`src/components/mn_wifi/MnWiFi.cpp`,
  `MnWiFi::begin` / `MnWiFi::apply_new_cfg_and_test`, together with the
  `/wifi` handler `handle_query_wifi` of `src/components/mn_web/MnWeb.cpp`).

Bytes are modelled as `Nat`, byte buffers as `List Nat`.  The HTTP transport,
the flash sink (`esp_ota_begin` / `esp_ota_write` / `esp_ota_end` /
`esp_ota_set_boot_partition`), the persistent store and the radio are external
collaborators: their outcomes are inputs of the model and the calls made to
them are recorded as an event trace.
-/

namespace MiNOS

set_option maxRecDepth 200000

/-- Framing mode of an upload session: raw firmware image or multipart body. -/
inductive UploadMode where
  | raw
  | multipart
deriving DecidableEq, Repr

/-- Observable actions of `MnOta::handle_upload` towards its collaborators:
successful and failed `esp_ota_write` calls, `esp_ota_end`,
`esp_ota_set_boot_partition`, error responses, the success response and the
final `esp_restart`. -/
inductive Ev where
  | otaWrite (p : List Nat)
  | otaWriteFail (p : List Nat)
  | otaEnd
  | setBoot
  | respErr (msg : String)
  | respOk
  | restart
deriving DecidableEq, Repr

/-- Inputs of one upload request: outcome of `esp_ota_begin`, of the three
`heap_caps_malloc` calls, the successive successful `httpd_req_recv` results
(an empty chunk models a read error / end of stream), the declared
`content_len`, the outcome of the i-th `esp_ota_write` call, and the outcomes
of `esp_ota_end` and `esp_ota_set_boot_partition` at finalization. -/
structure OtaIn where
  beginOk : Bool
  mallocOk : Bool
  chunks : List (List Nat)
  clen : Nat
  wr : Nat → Bool
  endOk : Bool
  setBootOk : Bool

/-- Result of one upload request: ESP_OK/ESP_FAIL, the event trace, the
`total_written` counter, the framing classification reached (none if the
request was rejected before classification or as an unknown format), and the
multipart boundary token in use (if any). -/
structure OtaOut where
  ok : Bool
  events : List Ev
  totalWritten : Nat
  mode : Option UploadMode
  boundary : Option (List Nat)
deriving DecidableEq, Repr

/-- `looks_like_esp_idf_image` (MnOta.cpp:26-61): structural sniff of an
ESP-IDF firmware image header on the first received chunk. -/
def looks_like_esp_idf_image (b : List Nat) : Bool :=
  if b.length < 24 then false
  else if b.getD 0 0 == 45 && b.getD 1 0 == 45 then false
  else if b.getD 0 0 != 233 then false
  else if b.getD 1 0 == 0 || b.getD 1 0 > 16 then false
  else if b.getD 2 0 > 5 then false
  else if b.getD 3 0 == 255 then false
  else
    let entry := b.getD 4 0 + b.getD 5 0 * 256 + b.getD 6 0 * 65536 +
      b.getD 7 0 * 16777216
    if entry == 0 || entry == 4294967295 then false else true

/-- `find_subseq` (MnOta.cpp:185-193): first index `i ≥ start` such that
`needle` occurs in `hay` at `i`; `none` mirrors the `(size_t)-1` result. -/
def find_subseq (hay needle : List Nat) (start : Nat) : Option Nat :=
  if needle.length = 0 ∨ hay.length < needle.length ∨ start > hay.length then
    none
  else
    ((List.range (hay.length + 1 - needle.length)).drop start).find?
      (fun i => decide (needle = (hay.drop i).take needle.length))

/-- The loop at MnOta.cpp:154-156: index of the first CRLF pair of the first
chunk (scanning `i + 1 < first_r`). -/
def findCrlf (b : List Nat) : Option Nat :=
  (List.range (b.length - 1)).find?
    (fun i => b.getD i 0 == 13 && b.getD (i + 1) 0 == 10)

/-- MnOta.cpp:153-167: boundary-line check of the multipart branch.  Returns
the boundary token (the first line, silently capped to 127 bytes by the
`boundary[128]` buffer) or `none` when the request must be rejected as an
unknown upload format. -/
def mp_classify (first : List Nat) : Option (List Nat) :=
  match findCrlf first with
  | none => none
  | some crlf =>
    if crlf < 2 ∨ first.getD 0 0 ≠ 45 ∨ first.getD 1 0 ≠ 45 then none
    else some (first.take (min crlf 127))

/-- MnOta.cpp:176-178: the retained-tail size `TAIL`, clamped to
`[32, TAIL_MAX = 256]`. -/
def tailSize (blen : Nat) : Nat :=
  let t := blen + 8
  let t := if t < 32 then 32 else t
  if t > 256 then 256 else t

/-- MnOta.cpp:195: the fixed header terminator `"\r\n\r\n"`. -/
def hdr_end_pat : List Nat := [13, 10, 13, 10]

/-- The last `k` bytes of `l` (all of `l` when `l.length ≤ k`); mirrors the
tail retention `memcpy(tail, win + (win_len - tail_len), tail_len)` with
`tail_len = min(win_len, TAIL)`. -/
def lastBytes (l : List Nat) (k : Nat) : List Nat :=
  l.drop (l.length - k)

/-- Per-iteration state of the multipart extraction loop
(MnOta.cpp:180-272). -/
structure MpSt where
  tail : List Nat
  started : Bool
  received : Nat
  total : Nat
  wi : Nat
  evs : List Ev
deriving Repr

/-- Outcome of one loop iteration: continue, `done = true`, or a fatal
`esp_ota_write` failure (error response sent, sink finalized, handler
returns). -/
inductive MpStep where
  | cont (st : MpSt)
  | finished (st : MpSt)
  | fatal (evs : List Ev) (total : Nat)

/-- Payload part of one iteration (MnOta.cpp:245-269): search the end-of-part
marker `end1` from `write_from`, choose `write_upto`, flush, and retain the
tail when not done. -/
def mp_payload (wr : Nat → Bool) (end1 : List Nat) (TAIL : Nat) (st : MpSt)
    (win : List Nat) (write_from : Nat) : MpStep :=
  match find_subseq win end1 write_from with
  | none =>
    let write_upto :=
      if win.length > write_from + TAIL then win.length - TAIL else write_from
    if write_upto > write_from then
      let p := (win.drop write_from).take (write_upto - write_from)
      if wr st.wi then
        MpStep.cont { st with
          total := st.total + (write_upto - write_from)
          wi := st.wi + 1
          evs := st.evs ++ [Ev.otaWrite p]
          tail := lastBytes win TAIL }
      else
        MpStep.fatal
          (st.evs ++ [Ev.otaWriteFail p, Ev.respErr "OTA write failed", Ev.otaEnd])
          st.total
    else
      MpStep.cont { st with tail := lastBytes win TAIL }
  | some end_pos =>
    if end_pos > write_from then
      let p := (win.drop write_from).take (end_pos - write_from)
      if wr st.wi then
        MpStep.finished { st with
          total := st.total + (end_pos - write_from)
          wi := st.wi + 1
          evs := st.evs ++ [Ev.otaWrite p] }
      else
        MpStep.fatal
          (st.evs ++ [Ev.otaWriteFail p, Ev.respErr "OTA write failed", Ev.otaEnd])
          st.total
    else
      MpStep.finished st

/-- One iteration of the multipart loop body (MnOta.cpp:214-271) applied to a
received chunk `rx`: build `win = tail ++ rx`, find the boundary and the
header terminator while not yet in a part body, then run the payload phase. -/
def mp_step (wr : Nat → Bool) (bd end1 : List Nat) (TAIL : Nat) (st : MpSt)
    (rx : List Nat) : MpStep :=
  let win := st.tail ++ rx
  if st.started then
    mp_payload wr end1 TAIL st win 0
  else
    match find_subseq win bd 0 with
    | none => MpStep.cont { st with tail := lastBytes win TAIL }
    | some bp =>
      match find_subseq win hdr_end_pat bp with
      | none => MpStep.cont { st with tail := lastBytes win TAIL }
      | some hdr_end =>
        mp_payload wr end1 TAIL { st with started := true } win
          (hdr_end + hdr_end_pat.length)

/-- The multipart read loop for the chunks after the prefetched one
(MnOta.cpp:200-272): reads proceed only while `received_total < content_len`;
an exhausted or erroring source breaks out to finalization. -/
def mp_loop (wr : Nat → Bool) (bd end1 : List Nat) (TAIL clen : Nat) :
    List (List Nat) → MpSt → Except (List Ev × Nat) (List Ev × Nat)
  | chunks, st =>
    if st.received < clen then
      match chunks with
      | [] => Except.ok (st.evs, st.total)
      | c :: cs =>
        if c.isEmpty then Except.ok (st.evs, st.total)
        else
          match mp_step wr bd end1 TAIL { st with received := st.received + c.length } c with
          | MpStep.cont st1 => mp_loop wr bd end1 TAIL clen cs st1
          | MpStep.finished st1 => Except.ok (st1.evs, st1.total)
          | MpStep.fatal evs t => Except.error (evs, t)
    else Except.ok (st.evs, st.total)

/-- The whole multipart extraction (MnOta.cpp:197-272): the first chunk is
prefetched (`have_prefetched`), consumed when `received_total ≤ content_len`,
then the loop continues on the remaining chunks. -/
def mp_run (wr : Nat → Bool) (bd end1 : List Nat) (TAIL clen : Nat)
    (first : List Nat) (rest : List (List Nat)) :
    Except (List Ev × Nat) (List Ev × Nat) :=
  let st0 : MpSt :=
    { tail := [], started := false, received := first.length, total := 0,
      wi := 0, evs := [] }
  if st0.received ≤ clen then
    match mp_step wr bd end1 TAIL st0 first with
    | MpStep.cont st1 => mp_loop wr bd end1 TAIL clen rest st1
    | MpStep.finished st1 => Except.ok (st1.evs, st1.total)
    | MpStep.fatal evs t => Except.error (evs, t)
  else Except.ok (st0.evs, st0.total)

/-- The raw upload loop (MnOta.cpp:133-146): every further chunk is written to
the sink unmodified while `received_total < content_len`. -/
def raw_loop (wr : Nat → Bool) (clen : Nat) :
    List (List Nat) → Nat → Nat → Nat → List Ev →
    Except (List Ev × Nat) (List Ev × Nat)
  | chunks, received, total, wi, evs =>
    if received < clen then
      match chunks with
      | [] => Except.ok (evs, total)
      | c :: cs =>
        if c.isEmpty then Except.ok (evs, total)
        else if wr wi then
          raw_loop wr clen cs (received + c.length) (total + c.length) (wi + 1)
            (evs ++ [Ev.otaWrite c])
        else
          Except.error
            (evs ++ [Ev.otaWriteFail c, Ev.respErr "OTA write failed", Ev.otaEnd],
             total)
    else Except.ok (evs, total)

/-- Finalization (MnOta.cpp:275-297): empty-payload rejection, `esp_ota_end`,
`esp_ota_set_boot_partition`, success response and restart. -/
def finalize (inp : OtaIn) (evs : List Ev) (total : Nat)
    (mode : Option UploadMode) (bd : Option (List Nat)) : OtaOut :=
  if total = 0 then
    ⟨false, evs ++ [Ev.respErr "Empty or invalid OTA payload", Ev.otaEnd],
     total, mode, bd⟩
  else if inp.endOk = false then
    ⟨false, evs ++ [Ev.otaEnd, Ev.respErr "OTA end failed"], total, mode, bd⟩
  else if inp.setBootOk = false then
    ⟨false, evs ++ [Ev.otaEnd, Ev.setBoot, Ev.respErr "Set boot partition failed"],
     total, mode, bd⟩
  else
    ⟨true, evs ++ [Ev.otaEnd, Ev.setBoot, Ev.respOk, Ev.restart], total, mode, bd⟩

/-- The RAW branch of `MnOta::handle_upload` (MnOta.cpp:125-146): write the
sniffing chunk, then run the raw loop, then finalize. -/
def raw_upload (inp : OtaIn) (first : List Nat) (rest : List (List Nat)) :
    OtaOut :=
  if inp.wr 0 = false then
    ⟨false, [Ev.otaWriteFail first, Ev.respErr "OTA write failed", Ev.otaEnd],
     0, some UploadMode.raw, none⟩
  else
    match raw_loop inp.wr inp.clen rest first.length first.length 1
        [Ev.otaWrite first] with
    | Except.error (e, t) => ⟨false, e, t, some UploadMode.raw, none⟩
    | Except.ok (e, t) => finalize inp e t (some UploadMode.raw) none

/-- The multipart branch of `MnOta::handle_upload` (MnOta.cpp:148-273):
boundary-line classification, then the extraction loop, then finalize. -/
def mp_upload (inp : OtaIn) (first : List Nat) (rest : List (List Nat)) :
    OtaOut :=
  match mp_classify first with
  | none =>
    ⟨false, [Ev.respErr "Unknown upload format", Ev.otaEnd], 0, none, none⟩
  | some bd =>
    match mp_run inp.wr bd ([13, 10] ++ bd) (tailSize bd.length) inp.clen
        first rest with
    | Except.error (e, t) =>
      ⟨false, e, t, some UploadMode.multipart, some bd⟩
    | Except.ok (e, t) => finalize inp e t (some UploadMode.multipart) (some bd)

/-- `MnOta::handle_upload` (MnOta.cpp:64-298). -/
def handle_upload (inp : OtaIn) : OtaOut :=
  if inp.beginOk = false then
    ⟨false, [Ev.respErr "OTA begin failed"], 0, none, none⟩
  else if inp.mallocOk = false then
    ⟨false, [Ev.respErr "No RAM for OTA buffers", Ev.otaEnd], 0, none, none⟩
  else
    match inp.chunks with
    | [] => ⟨false, [Ev.respErr "No payload", Ev.otaEnd], 0, none, none⟩
    | first :: rest =>
      if first.isEmpty then
        ⟨false, [Ev.respErr "No payload", Ev.otaEnd], 0, none, none⟩
      else if looks_like_esp_idf_image first then raw_upload inp first rest
      else mp_upload inp first rest

/-- Bytes flushed to the flash sink, in order: concatenation of the
successful `esp_ota_write` payloads of a trace. -/
def flushed (l : List Ev) : List Nat :=
  (l.filterMap (fun e => match e with | Ev.otaWrite p => some p | _ => none)).flatten

/-- Number of `esp_ota_end` calls in a trace. -/
def endCount (l : List Ev) : Nat :=
  l.countP (fun e => match e with | Ev.otaEnd => true | _ => false)

/-- Number of `esp_ota_set_boot_partition` calls in a trace. -/
def setBootCount (l : List Ev) : Nat :=
  l.countP (fun e => match e with | Ev.setBoot => true | _ => false)

/-- Number of `esp_restart` calls in a trace. -/
def restartCount (l : List Ev) : Nat :=
  l.countP (fun e => match e with | Ev.restart => true | _ => false)

/-- Number of error responses in a trace. -/
def errCount (l : List Ev) : Nat :=
  l.countP (fun e => match e with | Ev.respErr _ => true | _ => false)

/-- Is this event a successful sink write? -/
def isWrite : Ev → Bool
  | Ev.otaWrite _ => true
  | _ => false

/-- A trace fragment consisting solely of successful sink writes. -/
def onlyWrites (l : List Ev) : Prop := ∀ e ∈ l, isWrite e = true

/-! ## Credential commit controller

Model of the persisted `SystemConfig` fields handled by `handle_query_wifi`
(MnWeb.cpp:241-349), `MnWiFi::begin` (MnWiFi.cpp:103-131) and
`MnWiFi::apply_new_cfg_and_test` (MnWiFi.cpp:142-148).  Character-array
fields are modelled as `String`; `strncpy` into a `char buf[n]` followed by
explicit NUL-termination is modelled as `String.take (n - 1)`. -/

/-- The persisted configuration fields relevant to the credential state
machine (`SystemConfig`, MnConfig.hpp:10-26).  `WifiConfig` holds `0x5555`
(STABLE) or `0xAAAA` (TEST_PENDING). -/
structure WebCfg where
  WifiConfig : Nat
  wifi_ssid : String
  wifi_password : String
  old_wifi_ssid : String
  old_wifi_password : String
  hostname : String
  http_login : String
  http_password : String
  Sensitivity : Nat
deriving DecidableEq, Repr

/-- Observable actions of the credential-change flow: persisting the record
(`cfg.save()`), rendering the response page, attempting an STA join
(`start_sta` with the given credentials), and `esp_restart`. -/
inductive WebEv where
  | save (c : WebCfg)
  | render
  | sta (ssid pw : String)
  | reboot
deriving DecidableEq, Repr

/-- `get_kv` (MnWeb.cpp:276-279): first value bound to `key` in the parsed
form parameters, truncated to the 127 characters that fit `char val[128]`. -/
def getParam (ps : List (String × String)) (key : String) : Option String :=
  (ps.find? (fun p => p.fst == key)).map (fun p => p.snd.take 127)

/-- MnWeb.cpp:282-283: unconditional backup of the current credentials into
the `old` fields (`strncpy` with `sizeof(dst) - 1`). -/
def backupOld (cfg : WebCfg) : WebCfg :=
  { cfg with
    old_wifi_ssid := cfg.wifi_ssid.take 31
    old_wifi_password := cfg.wifi_password.take 63 }

/-- MnWeb.cpp:289-294: apply a submitted `wifiSSID` into `wifi_ssid[32]`. -/
def setSsid (cfg : WebCfg) (ps : List (String × String)) : WebCfg :=
  match getParam ps "wifiSSID" with
  | some v => { cfg with wifi_ssid := v.take 31 }
  | none => cfg

/-- MnWeb.cpp:296-301: apply a submitted `wifiPassword` into
`wifi_password[64]`. -/
def setPw (cfg : WebCfg) (ps : List (String × String)) : WebCfg :=
  match getParam ps "wifiPassword" with
  | some v => { cfg with wifi_password := v.take 63 }
  | none => cfg

/-- MnWeb.cpp:304-307: apply a submitted `httpLogin` into
`http_login[32]`. -/
def setLogin (cfg : WebCfg) (ps : List (String × String)) : WebCfg :=
  match getParam ps "httpLogin" with
  | some v => { cfg with http_login := v.take 31 }
  | none => cfg

/-- MnWeb.cpp:308-311: apply a submitted `httpPassword` into
`http_password[64]`. -/
def setHPw (cfg : WebCfg) (ps : List (String × String)) : WebCfg :=
  match getParam ps "httpPassword" with
  | some v => { cfg with http_password := v.take 63 }
  | none => cfg

/-- MnWeb.cpp:312-315: apply a submitted `hostname` into `hostname[32]`. -/
def setHost (cfg : WebCfg) (ps : List (String × String)) : WebCfg :=
  match getParam ps "hostname" with
  | some v => { cfg with hostname := v.take 31 }
  | none => cfg

/-- Digit-prefix accumulator of C `atoi`. -/
def digitsVal : List Char → Nat → Nat
  | c :: cs, acc =>
    if c.isDigit then digitsVal cs (acc * 10 + (c.toNat - 48)) else acc
  | [], acc => acc

/-- C `atoi`: skip leading whitespace, optional sign, leading digit run. -/
def atoiC (s : String) : Int :=
  let l := s.toList.dropWhile
    (fun c => c == ' ' || c == '\t' || c == '\n' || c == '\r' ||
      c == '\x0B' || c == '\x0C')
  match l with
  | '-' :: rest => -(digitsVal rest 0 : Int)
  | '+' :: rest => (digitsVal rest 0 : Int)
  | _ => (digitsVal l 0 : Int)

/-- MnWeb.cpp:317-320: clamp the parsed sensitivity to `0..255`. -/
def clamp255 (s : Int) : Nat :=
  (if s < 0 then 0 else if s > 255 then 255 else s).toNat

/-- MnWeb.cpp:316-321: apply a submitted `Sensitivity`. -/
def setSens (cfg : WebCfg) (ps : List (String × String)) : WebCfg :=
  match getParam ps "Sensitivity" with
  | some v => { cfg with Sensitivity := clamp255 (atoiC v) }
  | none => cfg

/-- MnWeb.cpp:281-321: the whole parameter-application phase of
`handle_query_wifi`, in source order. -/
def apply_params (cfg : WebCfg) (ps : List (String × String)) : WebCfg :=
  setSens (setHost (setHPw (setLogin (setPw (setSsid (backupOld cfg) ps) ps) ps) ps) ps) ps

/-- `MnWiFi::apply_new_cfg_and_test` (MnWiFi.cpp:142-148): test-join with the
staged credentials, persist STABLE on success / TEST_PENDING on failure, and
reboot in both cases. -/
def apply_new_cfg_and_test (cfg : WebCfg) (joinOk : Bool) : WebCfg × List WebEv :=
  if joinOk then
    ({ cfg with WifiConfig := 0x5555 },
     [WebEv.sta cfg.wifi_ssid cfg.wifi_password,
      WebEv.save { cfg with WifiConfig := 0x5555 }, WebEv.reboot])
  else
    ({ cfg with WifiConfig := 0xAAAA },
     [WebEv.sta cfg.wifi_ssid cfg.wifi_password,
      WebEv.save { cfg with WifiConfig := 0xAAAA }, WebEv.reboot])

/-- `handle_query_wifi` (MnWeb.cpp:241-349) after parameter decoding: apply
the submitted settings, then either run the staged credential test (when a
Wi-Fi key was submitted) or only persist and re-render.  Returns the final
in-memory configuration, the event trace, and whether the handler returns to
normal operation (`false` when the flow ends in a reboot). -/
def handle_query_wifi (cfg : WebCfg) (ps : List (String × String))
    (joinOk : Bool) : WebCfg × List WebEv × Bool :=
  let c := apply_params cfg ps
  if (getParam ps "wifiSSID").isSome || (getParam ps "wifiPassword").isSome then
    let c1 : WebCfg := { c with WifiConfig := 0xAAAA }
    let res := apply_new_cfg_and_test c1 joinOk
    (res.1, WebEv.save c1 :: WebEv.render :: res.2, false)
  else
    (c, [WebEv.save c, WebEv.render], true)

/-- Outcome of one boot of `MnWiFi::begin`: normal STA operation, access-point
mode, or a persisted-state change followed by `esp_restart`. -/
inductive BootResult where
  | sta (cfg : WebCfg)
  | ap (cfg : WebCfg)
  | reboot (cfg : WebCfg)
deriving DecidableEq, Repr

/-- `MnWiFi::begin` (MnWiFi.cpp:103-131): empty SSID starts AP mode;
otherwise try STA; on failure with `WifiConfig == 0xAAAA` restore the old
credentials (note: `strncpy` with full `sizeof`), keep `0xAAAA`, persist and
reboot; on success with `0xAAAA` commit `0x5555`, persist and reboot; on
plain failure fall back to AP mode; otherwise run normally. -/
def MnWiFi_begin (cfg : WebCfg) (joinOk : Bool) : BootResult :=
  if cfg.wifi_ssid = "" then BootResult.ap cfg
  else if joinOk = false ∧ cfg.WifiConfig = 0xAAAA then
    BootResult.reboot { cfg with
      WifiConfig := 0xAAAA
      wifi_ssid := cfg.old_wifi_ssid.take 32
      wifi_password := cfg.old_wifi_password.take 64 }
  else if joinOk = true ∧ cfg.WifiConfig = 0xAAAA then
    BootResult.reboot { cfg with WifiConfig := 0x5555 }
  else if joinOk = false then BootResult.ap cfg
  else BootResult.sta cfg

/-- Iterated boots: `js n` is the join outcome at the n-th boot; a `reboot`
result feeds the persisted configuration into the next boot.  With fuel
exhausted the pending restart is returned as is. -/
def runBoots (js : Nat → Bool) : Nat → WebCfg → BootResult
  | 0, cfg => BootResult.reboot cfg
  | n + 1, cfg =>
    match MnWiFi_begin cfg (js 0) with
    | BootResult.reboot c => runBoots (fun i => js (i + 1)) n c
    | r => r

/-- Did this boot end in access-point mode? -/
def reachedAp : BootResult → Bool
  | BootResult.ap _ => true
  | _ => false

/-! ## Trace bookkeeping lemmas -/

lemma onlyWrites_nil : onlyWrites [] := by
  intro e he
  cases he

lemma onlyWrites_single (p : List Nat) : onlyWrites [Ev.otaWrite p] := by
  intro e he
  rcases List.mem_singleton.mp he with rfl
  rfl

lemma onlyWrites_append {a b : List Ev} (ha : onlyWrites a) (hb : onlyWrites b) :
    onlyWrites (a ++ b) := by
  intro e he
  rcases List.mem_append.mp he with h | h
  · exact ha e h
  · exact hb e h

lemma countP_eq_zero_of_onlyWrites {p : Ev → Bool}
    (hp : ∀ b, p (Ev.otaWrite b) = false) :
    ∀ {l : List Ev}, onlyWrites l → l.countP p = 0 := by
  intro l h
  induction l with
  | nil => rfl
  | cons e t ih =>
    have he := h e (List.mem_cons_self e t)
    have ht : onlyWrites t := fun x hx => h x (List.mem_cons_of_mem e hx)
    cases e with
    | otaWrite b => rw [List.countP_cons, ih ht, hp]; rfl
    | otaWriteFail b => simp [isWrite] at he
    | otaEnd => simp [isWrite] at he
    | setBoot => simp [isWrite] at he
    | respErr m => simp [isWrite] at he
    | respOk => simp [isWrite] at he
    | restart => simp [isWrite] at he

lemma endCount_append (a b : List Ev) :
    endCount (a ++ b) = endCount a + endCount b :=
  List.countP_append _ _ _

lemma setBootCount_append (a b : List Ev) :
    setBootCount (a ++ b) = setBootCount a + setBootCount b :=
  List.countP_append _ _ _

lemma restartCount_append (a b : List Ev) :
    restartCount (a ++ b) = restartCount a + restartCount b :=
  List.countP_append _ _ _

lemma errCount_append (a b : List Ev) :
    errCount (a ++ b) = errCount a + errCount b :=
  List.countP_append _ _ _

lemma endCount_onlyWrites {l : List Ev} (h : onlyWrites l) : endCount l = 0 :=
  countP_eq_zero_of_onlyWrites (fun _ => rfl) h

lemma setBootCount_onlyWrites {l : List Ev} (h : onlyWrites l) :
    setBootCount l = 0 :=
  countP_eq_zero_of_onlyWrites (fun _ => rfl) h

lemma restartCount_onlyWrites {l : List Ev} (h : onlyWrites l) :
    restartCount l = 0 :=
  countP_eq_zero_of_onlyWrites (fun _ => rfl) h

lemma errCount_onlyWrites {l : List Ev} (h : onlyWrites l) : errCount l = 0 :=
  countP_eq_zero_of_onlyWrites (fun _ => rfl) h

lemma flushed_append (a b : List Ev) :
    flushed (a ++ b) = flushed a ++ flushed b := by
  simp [flushed, List.filterMap_append]

lemma flushed_map_write (l : List (List Nat)) :
    flushed (l.map Ev.otaWrite) = l.flatten := by
  induction l with
  | nil => rfl
  | cons c cs ih => simp [flushed, List.filterMap_cons] at ih ⊢; simp [ih]

/-! ## Shape of the loop traces -/

lemma mp_payload_shape (wr : Nat → Bool) (e1 : List Nat) (T : Nat) (st : MpSt)
    (win : List Nat) (wf : Nat) :
    (∃ st1 d, mp_payload wr e1 T st win wf = MpStep.cont st1 ∧
      st1.evs = st.evs ++ d ∧ onlyWrites d) ∨
    (∃ st1 d, mp_payload wr e1 T st win wf = MpStep.finished st1 ∧
      st1.evs = st.evs ++ d ∧ onlyWrites d) ∨
    (∃ b, mp_payload wr e1 T st win wf =
      MpStep.fatal
        (st.evs ++ [Ev.otaWriteFail b, Ev.respErr "OTA write failed", Ev.otaEnd])
        st.total) := by
  unfold mp_payload
  cases hfs : find_subseq win e1 wf with
  | none =>
    simp only []
    split_ifs <;>
      first
        | exact Or.inl ⟨_, [Ev.otaWrite _], rfl, rfl, onlyWrites_single _⟩
        | exact Or.inr (Or.inr ⟨_, rfl⟩)
        | exact Or.inl ⟨_, [], rfl, (List.append_nil _).symm, onlyWrites_nil⟩
  | some e =>
    simp only []
    split_ifs <;>
      first
        | exact Or.inr (Or.inl ⟨_, [Ev.otaWrite _], rfl, rfl, onlyWrites_single _⟩)
        | exact Or.inr (Or.inr ⟨_, rfl⟩)
        | exact Or.inr (Or.inl ⟨_, [], rfl, (List.append_nil _).symm, onlyWrites_nil⟩)

lemma mp_step_shape (wr : Nat → Bool) (bd e1 : List Nat) (T : Nat) (st : MpSt)
    (rx : List Nat) :
    (∃ st1 d, mp_step wr bd e1 T st rx = MpStep.cont st1 ∧
      st1.evs = st.evs ++ d ∧ onlyWrites d) ∨
    (∃ st1 d, mp_step wr bd e1 T st rx = MpStep.finished st1 ∧
      st1.evs = st.evs ++ d ∧ onlyWrites d) ∨
    (∃ b, mp_step wr bd e1 T st rx =
      MpStep.fatal
        (st.evs ++ [Ev.otaWriteFail b, Ev.respErr "OTA write failed", Ev.otaEnd])
        st.total) := by
  unfold mp_step
  simp only []
  split_ifs with hs
  · exact mp_payload_shape wr e1 T st _ 0
  · cases hb : find_subseq (st.tail ++ rx) bd 0 with
    | none =>
      exact Or.inl ⟨_, [], rfl, (List.append_nil _).symm, onlyWrites_nil⟩
    | some bp =>
      simp only []
      cases hh : find_subseq (st.tail ++ rx) hdr_end_pat bp with
      | none =>
        exact Or.inl ⟨_, [], rfl, (List.append_nil _).symm, onlyWrites_nil⟩
      | some he =>
        exact mp_payload_shape wr e1 T { st with started := true } _ _

lemma mp_loop_shape (wr : Nat → Bool) (bd e1 : List Nat) (T clen : Nat) :
    ∀ (chunks : List (List Nat)) (st : MpSt),
    (∃ e t, mp_loop wr bd e1 T clen chunks st = Except.ok (e, t) ∧
      ∃ d, e = st.evs ++ d ∧ onlyWrites d) ∨
    (∃ d b t, mp_loop wr bd e1 T clen chunks st =
      Except.error
        (st.evs ++ d ++ [Ev.otaWriteFail b, Ev.respErr "OTA write failed", Ev.otaEnd],
         t) ∧ onlyWrites d) := by
  intro chunks
  induction chunks with
  | nil =>
    intro st
    left
    refine ⟨st.evs, st.total, ?_, [], (List.append_nil _).symm, onlyWrites_nil⟩
    unfold mp_loop
    split_ifs <;> rfl
  | cons c cs ih =>
    intro st
    unfold mp_loop
    simp only []
    split_ifs with h1 h2
    · exact Or.inl ⟨st.evs, st.total, rfl, [], (List.append_nil _).symm, onlyWrites_nil⟩
    · rcases mp_step_shape wr bd e1 T { st with received := st.received + c.length } c
        with ⟨st1, d, heq, hevs, hd⟩ | ⟨st1, d, heq, hevs, hd⟩ | ⟨b, heq⟩
      · rw [heq]
        rcases ih st1 with ⟨e, t, hl, d2, he2, hd2⟩ | ⟨d2, b2, t2, hl, hd2⟩
        · exact Or.inl ⟨e, t, hl, d ++ d2,
            by rw [he2, hevs, List.append_assoc], onlyWrites_append hd hd2⟩
        · refine Or.inr ⟨d ++ d2, b2, t2, ?_, onlyWrites_append hd hd2⟩
          have hgoal : mp_loop wr bd e1 T clen cs st1 =
              Except.error
                (st.evs ++ (d ++ d2) ++
                  [Ev.otaWriteFail b2, Ev.respErr "OTA write failed", Ev.otaEnd],
                 t2) := by
            rw [hl, hevs]
            simp [List.append_assoc]
          exact hgoal
      · rw [heq]
        exact Or.inl ⟨st1.evs, st1.total, rfl, d, hevs, hd⟩
      · rw [heq]
        exact Or.inr ⟨[], b, st.total, by simp, onlyWrites_nil⟩
    · exact Or.inl ⟨st.evs, st.total, rfl, [], (List.append_nil _).symm, onlyWrites_nil⟩

lemma mp_run_shape (wr : Nat → Bool) (bd e1 : List Nat) (T clen : Nat)
    (first : List Nat) (rest : List (List Nat)) :
    (∃ e t, mp_run wr bd e1 T clen first rest = Except.ok (e, t) ∧ onlyWrites e) ∨
    (∃ d b t, mp_run wr bd e1 T clen first rest =
      Except.error
        (d ++ [Ev.otaWriteFail b, Ev.respErr "OTA write failed", Ev.otaEnd], t) ∧
      onlyWrites d) := by
  unfold mp_run
  simp only []
  split_ifs with h1
  · rcases mp_step_shape wr bd e1 T
        { tail := [], started := false, received := first.length, total := 0,
          wi := 0, evs := [] } first
      with ⟨st1, d, heq, hevs, hd⟩ | ⟨st1, d, heq, hevs, hd⟩ | ⟨b, heq⟩
    · rw [heq]
      rcases mp_loop_shape wr bd e1 T clen rest st1 with
          ⟨e, t, hl, d2, he2, hd2⟩ | ⟨d2, b2, t2, hl, hd2⟩
      · refine Or.inl ⟨e, t, hl, ?_⟩
        rw [he2, hevs]
        simpa using onlyWrites_append hd hd2
      · refine Or.inr ⟨d ++ d2, b2, t2, ?_, onlyWrites_append hd hd2⟩
        have hgoal : mp_loop wr bd e1 T clen rest st1 =
            Except.error
              (d ++ d2 ++
                [Ev.otaWriteFail b2, Ev.respErr "OTA write failed", Ev.otaEnd],
               t2) := by
          rw [hl, hevs]
          simp [List.append_assoc]
        exact hgoal
    · rw [heq]
      refine Or.inl ⟨st1.evs, st1.total, rfl, ?_⟩
      rw [hevs]
      simpa using hd
    · rw [heq]
      exact Or.inr ⟨[], b, 0, by simp, onlyWrites_nil⟩
  · exact Or.inl ⟨[], 0, rfl, onlyWrites_nil⟩

lemma raw_loop_shape (wr : Nat → Bool) (clen : Nat) :
    ∀ (chunks : List (List Nat)) (received total wi : Nat) (evs : List Ev),
    (∃ e t, raw_loop wr clen chunks received total wi evs = Except.ok (e, t) ∧
      ∃ d, e = evs ++ d ∧ onlyWrites d) ∨
    (∃ d b t, raw_loop wr clen chunks received total wi evs =
      Except.error
        (evs ++ d ++ [Ev.otaWriteFail b, Ev.respErr "OTA write failed", Ev.otaEnd],
         t) ∧ onlyWrites d) := by
  intro chunks
  induction chunks with
  | nil =>
    intro received total wi evs
    refine Or.inl ⟨evs, total, ?_, [], (List.append_nil _).symm, onlyWrites_nil⟩
    unfold raw_loop
    split_ifs <;> rfl
  | cons c cs ih =>
    intro received total wi evs
    unfold raw_loop
    simp only []
    split_ifs with h1 h2 h3
    · exact Or.inl ⟨evs, total, rfl, [], (List.append_nil _).symm, onlyWrites_nil⟩
    · rcases ih (received + c.length) (total + c.length) (wi + 1)
          (evs ++ [Ev.otaWrite c]) with
          ⟨e, t, hl, d, hd, hw⟩ | ⟨d, b, t, hl, hd⟩
      · refine Or.inl ⟨e, t, hl, [Ev.otaWrite c] ++ d, ?_,
          onlyWrites_append (onlyWrites_single c) hw⟩
        rw [hd, List.append_assoc]
      · refine Or.inr ⟨[Ev.otaWrite c] ++ d, b, t, ?_,
          onlyWrites_append (onlyWrites_single c) hd⟩
        rw [hl]
        simp [List.append_assoc]
    · exact Or.inr ⟨[], c, total, by simp, onlyWrites_nil⟩
    · exact Or.inl ⟨evs, total, rfl, [], (List.append_nil _).symm, onlyWrites_nil⟩

/-! ## Finalization lemmas -/

lemma finalize_cases (inp : OtaIn) (e : List Ev) (t : Nat)
    (m : Option UploadMode) (bd : Option (List Nat)) :
    (t = 0 ∧ finalize inp e t m bd =
      ⟨false, e ++ [Ev.respErr "Empty or invalid OTA payload", Ev.otaEnd], t, m, bd⟩) ∨
    (t ≠ 0 ∧ inp.endOk = false ∧ finalize inp e t m bd =
      ⟨false, e ++ [Ev.otaEnd, Ev.respErr "OTA end failed"], t, m, bd⟩) ∨
    (t ≠ 0 ∧ inp.endOk = true ∧ inp.setBootOk = false ∧ finalize inp e t m bd =
      ⟨false, e ++ [Ev.otaEnd, Ev.setBoot, Ev.respErr "Set boot partition failed"],
       t, m, bd⟩) ∨
    (t ≠ 0 ∧ inp.endOk = true ∧ inp.setBootOk = true ∧ finalize inp e t m bd =
      ⟨true, e ++ [Ev.otaEnd, Ev.setBoot, Ev.respOk, Ev.restart], t, m, bd⟩) := by
  have hbool : ∀ b : Bool, ¬(b = false) → b = true := by
    intro b hb
    cases b
    · exact absurd rfl hb
    · rfl
  unfold finalize
  split_ifs with h1 h2 h3
  · exact Or.inl ⟨h1, rfl⟩
  · exact Or.inr (Or.inl ⟨h1, h2, rfl⟩)
  · exact Or.inr (Or.inr (Or.inl ⟨h1, hbool _ h2, h3, rfl⟩))
  · exact Or.inr (Or.inr (Or.inr ⟨h1, hbool _ h2, hbool _ h3, rfl⟩))

lemma finalize_mode (inp : OtaIn) (e : List Ev) (t : Nat)
    (m : Option UploadMode) (bd : Option (List Nat)) :
    (finalize inp e t m bd).mode = m := by
  unfold finalize
  split_ifs <;> rfl

lemma finalize_boundary (inp : OtaIn) (e : List Ev) (t : Nat)
    (m : Option UploadMode) (bd : Option (List Nat)) :
    (finalize inp e t m bd).boundary = bd := by
  unfold finalize
  split_ifs <;> rfl

lemma finalize_totalWritten (inp : OtaIn) (e : List Ev) (t : Nat)
    (m : Option UploadMode) (bd : Option (List Nat)) :
    (finalize inp e t m bd).totalWritten = t := by
  unfold finalize
  split_ifs <;> rfl

/-! ## Facts about the two upload branches -/

lemma looks_length {b : List Nat} (h : looks_like_esp_idf_image b = true) :
    24 ≤ b.length := by
  by_contra hlt
  push_neg at hlt
  unfold looks_like_esp_idf_image at h
  rw [if_pos hlt] at h
  exact Bool.noConfusion h

lemma looks_nonempty {b : List Nat} (h : looks_like_esp_idf_image b = true) :
    b.isEmpty = false := by
  have h24 := looks_length h
  cases b
  · simp at h24
  · rfl

lemma setBootCount_ow_append {e : List Ev} (h : onlyWrites e) (s : List Ev) :
    setBootCount (e ++ s) = setBootCount s := by
  rw [setBootCount_append, setBootCount_onlyWrites h, Nat.zero_add]

lemma restartCount_ow_append {e : List Ev} (h : onlyWrites e) (s : List Ev) :
    restartCount (e ++ s) = restartCount s := by
  rw [restartCount_append, restartCount_onlyWrites h, Nat.zero_add]

lemma endCount_ow_append {e : List Ev} (h : onlyWrites e) (s : List Ev) :
    endCount (e ++ s) = endCount s := by
  rw [endCount_append, endCount_onlyWrites h, Nat.zero_add]

lemma errCount_ow_append {e : List Ev} (h : onlyWrites e) (s : List Ev) :
    errCount (e ++ s) = errCount s := by
  rw [errCount_append, errCount_onlyWrites h, Nat.zero_add]

lemma finalize_endCount (inp : OtaIn) (e : List Ev) (t : Nat)
    (m : Option UploadMode) (bd : Option (List Nat)) (he : onlyWrites e) :
    endCount (finalize inp e t m bd).events = 1 := by
  rcases finalize_cases inp e t m bd with
      ⟨_, hf⟩ | ⟨_, _, hf⟩ | ⟨_, _, _, hf⟩ | ⟨_, _, _, hf⟩ <;>
    rw [hf] <;> simp only [] <;> rw [endCount_ow_append he] <;> rfl

lemma finalize_c4 (inp : OtaIn) (e : List Ev) (t : Nat)
    (m : Option UploadMode) (bd : Option (List Nat)) (he : onlyWrites e)
    (ht : t = 0) :
    (finalize inp e t m bd).ok = false ∧
    setBootCount (finalize inp e t m bd).events = 0 ∧
    restartCount (finalize inp e t m bd).events = 0 ∧
    1 ≤ errCount (finalize inp e t m bd).events := by
  rcases finalize_cases inp e t m bd with
      ⟨_, hf⟩ | ⟨ht2, _, hf⟩ | ⟨ht2, _, _, hf⟩ | ⟨ht2, _, _, hf⟩
  · rw [hf]
    refine ⟨rfl, ?_, ?_, ?_⟩
    · have hv : setBootCount (e ++ [Ev.respErr "Empty or invalid OTA payload",
          Ev.otaEnd]) = 0 := by
        rw [setBootCount_ow_append he]
        rfl
      exact hv
    · have hv : restartCount (e ++ [Ev.respErr "Empty or invalid OTA payload",
          Ev.otaEnd]) = 0 := by
        rw [restartCount_ow_append he]
        rfl
      exact hv
    · have hv : 1 ≤ errCount (e ++ [Ev.respErr "Empty or invalid OTA payload",
          Ev.otaEnd]) := by
        rw [errCount_ow_append he]
        exact Nat.le_refl 1
      exact hv
  · exact absurd ht ht2
  · exact absurd ht ht2
  · exact absurd ht ht2

lemma fatal_counts {pre d : List Ev} (hpre : onlyWrites pre)
    (hd : onlyWrites d) (b : List Nat) :
    setBootCount (pre ++ d ++ [Ev.otaWriteFail b, Ev.respErr "OTA write failed",
      Ev.otaEnd]) = 0 ∧
    restartCount (pre ++ d ++ [Ev.otaWriteFail b, Ev.respErr "OTA write failed",
      Ev.otaEnd]) = 0 ∧
    endCount (pre ++ d ++ [Ev.otaWriteFail b, Ev.respErr "OTA write failed",
      Ev.otaEnd]) = 1 ∧
    1 ≤ errCount (pre ++ d ++ [Ev.otaWriteFail b, Ev.respErr "OTA write failed",
      Ev.otaEnd]) := by
  refine ⟨?_, ?_, ?_, ?_⟩ <;> rw [List.append_assoc]
  · rw [setBootCount_ow_append hpre, setBootCount_ow_append hd]
    rfl
  · rw [restartCount_ow_append hpre, restartCount_ow_append hd]
    rfl
  · rw [endCount_ow_append hpre, endCount_ow_append hd]
    rfl
  · rw [errCount_ow_append hpre, errCount_ow_append hd]
    exact Nat.le_refl 1

lemma raw_upload_endCount (inp : OtaIn) (first : List Nat)
    (rest : List (List Nat)) :
    endCount (raw_upload inp first rest).events = 1 := by
  unfold raw_upload
  split_ifs with hw
  · rfl
  · rcases raw_loop_shape inp.wr inp.clen rest first.length first.length 1
        [Ev.otaWrite first] with ⟨e, t, heq, d, hd, hdw⟩ | ⟨d, b, t, heq, hdw⟩
    · rw [heq]
      have he : onlyWrites e := by
        rw [hd]
        exact onlyWrites_append (onlyWrites_single _) hdw
      exact finalize_endCount inp e t (some UploadMode.raw) none he
    · rw [heq]
      exact (fatal_counts (onlyWrites_single first) hdw b).2.2.1

lemma mp_upload_endCount (inp : OtaIn) (first : List Nat)
    (rest : List (List Nat)) :
    endCount (mp_upload inp first rest).events = 1 := by
  unfold mp_upload
  cases hc : mp_classify first with
  | none => rfl
  | some bd =>
    simp only []
    rcases mp_run_shape inp.wr bd ([13, 10] ++ bd) (tailSize bd.length) inp.clen
        first rest with ⟨e, t, heq, hdw⟩ | ⟨d, b, t, heq, hdw⟩
    · rw [heq]
      exact finalize_endCount inp e t (some UploadMode.multipart) (some bd) hdw
    · rw [heq]
      have hv := (fatal_counts onlyWrites_nil hdw b).2.2.1
      rw [List.nil_append] at hv
      exact hv

lemma raw_upload_c4 (inp : OtaIn) (first : List Nat) (rest : List (List Nat))
    (h0 : (raw_upload inp first rest).totalWritten = 0) :
    (raw_upload inp first rest).ok = false ∧
    setBootCount (raw_upload inp first rest).events = 0 ∧
    restartCount (raw_upload inp first rest).events = 0 ∧
    1 ≤ errCount (raw_upload inp first rest).events := by
  unfold raw_upload at h0 ⊢
  split_ifs at h0 ⊢ with hw
  · exact ⟨rfl, rfl, rfl, Nat.le_refl 1⟩
  · rcases raw_loop_shape inp.wr inp.clen rest first.length first.length 1
        [Ev.otaWrite first] with ⟨e, t, heq, d, hd, hdw⟩ | ⟨d, b, t, heq, hdw⟩
    · rw [heq] at h0 ⊢
      have he : onlyWrites e := by
        rw [hd]
        exact onlyWrites_append (onlyWrites_single _) hdw
      have ht : t = 0 := by
        have hv : (finalize inp e t (some UploadMode.raw) none).totalWritten
            = t := finalize_totalWritten inp e t _ _
        rw [← hv]
        exact h0
      exact finalize_c4 inp e t (some UploadMode.raw) none he ht
    · rw [heq] at h0 ⊢
      rcases fatal_counts (onlyWrites_single first) hdw b with ⟨hA, hB, _, hD⟩
      exact ⟨rfl, hA, hB, hD⟩

lemma mp_upload_c4 (inp : OtaIn) (first : List Nat) (rest : List (List Nat))
    (h0 : (mp_upload inp first rest).totalWritten = 0) :
    (mp_upload inp first rest).ok = false ∧
    setBootCount (mp_upload inp first rest).events = 0 ∧
    restartCount (mp_upload inp first rest).events = 0 ∧
    1 ≤ errCount (mp_upload inp first rest).events := by
  unfold mp_upload at h0 ⊢
  cases hc : mp_classify first with
  | none => exact ⟨rfl, rfl, rfl, Nat.le_refl 1⟩
  | some bd =>
    rw [hc] at h0
    simp only [] at h0 ⊢
    rcases mp_run_shape inp.wr bd ([13, 10] ++ bd) (tailSize bd.length) inp.clen
        first rest with ⟨e, t, heq, hdw⟩ | ⟨d, b, t, heq, hdw⟩
    · rw [heq] at h0 ⊢
      have ht : t = 0 := by
        have hv : (finalize inp e t (some UploadMode.multipart) (some bd)).totalWritten
            = t := finalize_totalWritten inp e t _ _
        rw [← hv]
        exact h0
      exact finalize_c4 inp e t (some UploadMode.multipart) (some bd) hdw ht
    · rw [heq] at h0 ⊢
      rcases fatal_counts onlyWrites_nil hdw b with ⟨hA, hB, _, hD⟩
      rw [List.nil_append] at hA hB hD
      exact ⟨rfl, hA, hB, hD⟩
lemma handle_upload_raw_branch (inp : OtaIn) (first : List Nat)
    (rest : List (List Nat)) (hch : inp.chunks = first :: rest)
    (hb : inp.beginOk = true) (hm : inp.mallocOk = true)
    (hlooks : looks_like_esp_idf_image first = true) :
    handle_upload inp = raw_upload inp first rest := by
  unfold handle_upload
  rw [hch, hb, hm]
  simp [looks_nonempty hlooks, hlooks]

lemma handle_upload_mp_branch (inp : OtaIn) (first : List Nat)
    (rest : List (List Nat)) (hch : inp.chunks = first :: rest)
    (hb : inp.beginOk = true) (hm : inp.mallocOk = true)
    (hne : first.isEmpty = false)
    (hlooks : looks_like_esp_idf_image first = false) :
    handle_upload inp = mp_upload inp first rest := by
  unfold handle_upload
  rw [hch, hb, hm]
  simp [hne, hlooks]

/-! ## C3 and C4 -/

lemma handle_upload_endCount (inp : OtaIn) (h : inp.beginOk = true) :
    endCount (handle_upload inp).events = 1 := by
  by_cases hm : inp.mallocOk = true
  · cases hch : inp.chunks with
    | nil =>
      unfold handle_upload
      rw [hch, h, hm]
      simp
      rfl
    | cons f r =>
      by_cases hne : f.isEmpty = true
      · unfold handle_upload
        rw [hch, h, hm]
        simp [hne]
        rfl
      · have hne' : f.isEmpty = false := by
          revert hne
          cases f.isEmpty <;> simp
        by_cases hlk : looks_like_esp_idf_image f = true
        · rw [handle_upload_raw_branch inp f r hch h hm hlk]
          exact raw_upload_endCount inp f r
        · have hlk' : looks_like_esp_idf_image f = false := by
            revert hlk
            cases looks_like_esp_idf_image f <;> simp
          rw [handle_upload_mp_branch inp f r hch h hm hne' hlk']
          exact mp_upload_endCount inp f r
  · have hm' : inp.mallocOk = false := by
      revert hm
      cases inp.mallocOk <;> simp
    unfold handle_upload
    rw [h, hm']
    simp
    rfl

/-- C3: for every upload request whose `esp_ota_begin` succeeds, the handler
performs exactly one finalization call (`esp_ota_end`) on the sink handle
before returning, on every path: format error, empty payload, storage/write
error, out-of-memory, and success. -/
theorem c3_single_finalization (inp : OtaIn) (h : inp.beginOk = true) :
    endCount (handle_upload inp).events = 1 :=
  handle_upload_endCount inp h

/-- C4: whenever zero firmware payload bytes were written to the sink, the
handler rejects the request with an error response, finalizes the sink
without activating any new image (`esp_ota_set_boot_partition` is never
called), and does not restart the device. -/
theorem c4_empty_payload_rejected (inp : OtaIn) (h : inp.beginOk = true)
    (h0 : (handle_upload inp).totalWritten = 0) :
    (handle_upload inp).ok = false ∧
    setBootCount (handle_upload inp).events = 0 ∧
    restartCount (handle_upload inp).events = 0 ∧
    endCount (handle_upload inp).events = 1 ∧
    1 ≤ errCount (handle_upload inp).events := by
  have hend := handle_upload_endCount inp h
  by_cases hm : inp.mallocOk = true
  · cases hch : inp.chunks with
    | nil =>
      have hv : handle_upload inp =
          ⟨false, [Ev.respErr "No payload", Ev.otaEnd], 0, none, none⟩ := by
        unfold handle_upload
        rw [hch, h, hm]
        simp
      rw [hv]
      exact ⟨rfl, rfl, rfl, rfl, Nat.le_refl 1⟩
    | cons f r =>
      by_cases hne : f.isEmpty = true
      · have hv : handle_upload inp =
            ⟨false, [Ev.respErr "No payload", Ev.otaEnd], 0, none, none⟩ := by
          unfold handle_upload
          rw [hch, h, hm]
          simp [hne]
        rw [hv]
        exact ⟨rfl, rfl, rfl, rfl, Nat.le_refl 1⟩
      · have hne' : f.isEmpty = false := by
          revert hne
          cases f.isEmpty <;> simp
        by_cases hlk : looks_like_esp_idf_image f = true
        · rw [handle_upload_raw_branch inp f r hch h hm hlk] at h0 ⊢
          rw [handle_upload_raw_branch inp f r hch h hm hlk] at hend
          rcases raw_upload_c4 inp f r h0 with ⟨ha, hb2, hc2, hd2⟩
          exact ⟨ha, hb2, hc2, hend, hd2⟩
        · have hlk' : looks_like_esp_idf_image f = false := by
            revert hlk
            cases looks_like_esp_idf_image f <;> simp
          rw [handle_upload_mp_branch inp f r hch h hm hne' hlk'] at h0 ⊢
          rw [handle_upload_mp_branch inp f r hch h hm hne' hlk'] at hend
          rcases mp_upload_c4 inp f r h0 with ⟨ha, hb2, hc2, hd2⟩
          exact ⟨ha, hb2, hc2, hend, hd2⟩
  · have hm' : inp.mallocOk = false := by
      revert hm
      cases inp.mallocOk <;> simp
    have hv : handle_upload inp =
        ⟨false, [Ev.respErr "No RAM for OTA buffers", Ev.otaEnd], 0, none, none⟩ := by
      unfold handle_upload
      rw [h, hm']
      simp
    rw [hv]
    exact ⟨rfl, rfl, rfl, rfl, Nat.le_refl 1⟩

/-! ## C8: the RAW path forwards every chunk unmodified -/

lemma isEmpty_false_length {c : List Nat} (h : c.isEmpty = false) :
    1 ≤ c.length := by
  cases c
  · exact Bool.noConfusion h
  · exact Nat.succ_le_succ (Nat.zero_le _)

lemma raw_loop_all_ok (clen : Nat) :
    ∀ (chunks : List (List Nat)) (received total wi : Nat) (evs : List Ev),
    (∀ c ∈ chunks, c.isEmpty = false) →
    received + (chunks.map List.length).sum = clen →
    raw_loop (fun _ => true) clen chunks received total wi evs =
      Except.ok (evs ++ chunks.map Ev.otaWrite,
        total + (chunks.map List.length).sum) := by
  intro chunks
  induction chunks with
  | nil =>
    intro received total wi evs _ hsum
    unfold raw_loop
    rw [if_neg (by simp at hsum; omega)]
    simp
  | cons c cs ih =>
    intro received total wi evs hne hsum
    have hc : c.isEmpty = false := hne c (List.mem_cons_self c cs)
    have hcs : ∀ x ∈ cs, x.isEmpty = false :=
      fun x hx => hne x (List.mem_cons_of_mem c hx)
    have hclen : 1 ≤ c.length := isEmpty_false_length hc
    have hsum' : received + (c.length + (cs.map List.length).sum) = clen := by
      simpa using hsum
    unfold raw_loop
    rw [if_pos (by omega)]
    simp only [hc]
    rw [if_neg (by simp)]
    rw [if_pos trivial]
    rw [ih (received + c.length) (total + c.length) (wi + 1)
      (evs ++ [Ev.otaWrite c]) hcs (by omega)]
    simp [List.append_assoc]
    omega

/-- C8: in RAW mode every received chunk, including the sniffing chunk, is
forwarded to the sink unmodified and in arrival order; when the chunking sums
to the declared content length and all reads/writes succeed, `total_written`
equals the content length and the new partition is activated, followed by a
restart. -/
theorem c8_raw_forwarding (first : List Nat) (rest : List (List Nat))
    (clen : Nat) (hlooks : looks_like_esp_idf_image first = true)
    (hne : ∀ c ∈ rest, c.isEmpty = false)
    (hsum : first.length + (rest.map List.length).sum = clen) :
    (handle_upload ⟨true, true, first :: rest, clen, fun _ => true, true, true⟩).totalWritten = clen ∧
    (handle_upload ⟨true, true, first :: rest, clen, fun _ => true, true, true⟩).ok = true ∧
    flushed (handle_upload ⟨true, true, first :: rest, clen, fun _ => true, true, true⟩).events =
      first ++ rest.flatten ∧
    (handle_upload ⟨true, true, first :: rest, clen, fun _ => true, true, true⟩).mode =
      some UploadMode.raw ∧
    setBootCount (handle_upload ⟨true, true, first :: rest, clen, fun _ => true, true, true⟩).events = 1 ∧
    restartCount (handle_upload ⟨true, true, first :: rest, clen, fun _ => true, true, true⟩).events = 1 := by
  have h24 := looks_length hlooks
  have hclen : 24 ≤ clen := by
    have := (rest.map List.length).sum
    omega
  rw [handle_upload_raw_branch
    ⟨true, true, first :: rest, clen, fun _ => true, true, true⟩ first rest
    rfl rfl rfl hlooks]
  unfold raw_upload
  rw [if_neg (by simp)]
  rw [raw_loop_all_ok clen rest first.length first.length 1 [Ev.otaWrite first]
    hne hsum]
  simp only []
  rcases finalize_cases ⟨true, true, first :: rest, clen, fun _ => true, true, true⟩
      ([Ev.otaWrite first] ++ rest.map Ev.otaWrite)
      (first.length + (rest.map List.length).sum) (some UploadMode.raw) none with
      ⟨ht, hf⟩ | ⟨ht, hE, hf⟩ | ⟨ht, hE, hS, hf⟩ | ⟨ht, hE, hS, hf⟩
  · omega
  · exact Bool.noConfusion hE
  · exact Bool.noConfusion hS
  · rw [hf]
    have how : onlyWrites ([Ev.otaWrite first] ++ rest.map Ev.otaWrite) := by
      refine onlyWrites_append (onlyWrites_single _) ?_
      intro e he
      rcases List.mem_map.mp he with ⟨x, _, rfl⟩
      rfl
    refine ⟨hsum, rfl, ?_, rfl, ?_, ?_⟩
    · rw [show (⟨true, ([Ev.otaWrite first] ++ rest.map Ev.otaWrite) ++
          [Ev.otaEnd, Ev.setBoot, Ev.respOk, Ev.restart],
          first.length + (rest.map List.length).sum, some UploadMode.raw,
          none⟩ : OtaOut).events =
          ([Ev.otaWrite first] ++ rest.map Ev.otaWrite) ++
          [Ev.otaEnd, Ev.setBoot, Ev.respOk, Ev.restart] from rfl]
      rw [flushed_append, flushed_append, flushed_map_write]
      have h1 : flushed [Ev.otaWrite first] = first ++ [] := rfl
      have h2 : flushed [Ev.otaEnd, Ev.setBoot, Ev.respOk, Ev.restart] = [] := rfl
      rw [h1, h2]
      simp
    · rw [setBootCount_ow_append how]
      rfl
    · rw [restartCount_ow_append how]
      rfl

/-! ## Classification lemmas (C5, C7, C10) -/

lemma looks_false_of_short {b : List Nat} (h : b.length < 24) :
    looks_like_esp_idf_image b = false := by
  unfold looks_like_esp_idf_image
  rw [if_pos h]

lemma looks_false_of_dashes {b : List Nat} (h0 : b.getD 0 0 = 45)
    (h1 : b.getD 1 0 = 45) : looks_like_esp_idf_image b = false := by
  unfold looks_like_esp_idf_image
  by_cases hl : b.length < 24
  · rw [if_pos hl]
  · rw [if_neg hl, h0, h1]
    rw [if_pos (show ((45 : Nat) == 45 && (45 : Nat) == 45) = true from rfl)]

lemma looks_true_of_sig {b : List Nat} (h24 : 24 ≤ b.length)
    (hA : b.getD 0 0 = 233) (hB : 1 ≤ b.getD 1 0) (hC : b.getD 1 0 ≤ 16)
    (hD : b.getD 2 0 ≤ 5) (hE : b.getD 3 0 ≠ 255)
    (hF : b.getD 4 0 + b.getD 5 0 * 256 + b.getD 6 0 * 65536 +
      b.getD 7 0 * 16777216 ≠ 0)
    (hG : b.getD 4 0 + b.getD 5 0 * 256 + b.getD 6 0 * 65536 +
      b.getD 7 0 * 16777216 ≠ 4294967295) :
    looks_like_esp_idf_image b = true := by
  have c1 : ¬(b.getD 1 0 == 0 || b.getD 1 0 > 16) = true := by
    simp only [Bool.or_eq_true, beq_iff_eq, decide_eq_true_eq, not_or]
    omega
  have c2 : ¬(b.getD 2 0 > 5) := by omega
  have c3 : ¬(b.getD 3 0 == 255) = true := by
    simp only [beq_iff_eq]
    omega
  have c4 : ¬((b.getD 4 0 + b.getD 5 0 * 256 + b.getD 6 0 * 65536 +
      b.getD 7 0 * 16777216 == 0) ||
      (b.getD 4 0 + b.getD 5 0 * 256 + b.getD 6 0 * 65536 +
      b.getD 7 0 * 16777216 == 4294967295)) = true := by
    simp only [Bool.or_eq_true, beq_iff_eq, not_or]
    omega
  unfold looks_like_esp_idf_image
  rw [if_neg (by omega), hA]
  rw [if_neg (by simp)]
  rw [if_neg (by simp)]
  rw [if_neg c1]
  rw [if_neg c2]
  rw [if_neg c3]
  simp only []
  rw [if_neg c4]

lemma take2_getD {b : List Nat} (h : b.take 2 = [45, 45]) :
    b.getD 0 0 = 45 ∧ b.getD 1 0 = 45 := by
  cases b with
  | nil => simp at h
  | cons a t =>
    cases t with
    | nil => simp at h
    | cons a2 t2 =>
      have h2 : a :: a2 :: t2.take 0 = [45, 45] := h
      simp at h2
      rcases h2 with ⟨rfl, rfl⟩
      exact ⟨rfl, rfl⟩

lemma raw_upload_mode (inp : OtaIn) (first : List Nat)
    (rest : List (List Nat)) :
    (raw_upload inp first rest).mode = some UploadMode.raw := by
  unfold raw_upload
  split_ifs with hw
  · rfl
  · rcases raw_loop_shape inp.wr inp.clen rest first.length first.length 1
        [Ev.otaWrite first] with ⟨e, t, heq, -⟩ | ⟨d, b, t, heq, -⟩
    · rw [heq]
      exact finalize_mode inp e t (some UploadMode.raw) none
    · rw [heq]

lemma mp_upload_not_raw (inp : OtaIn) (first : List Nat)
    (rest : List (List Nat)) :
    (mp_upload inp first rest).mode ≠ some UploadMode.raw := by
  unfold mp_upload
  cases hc : mp_classify first with
  | none =>
    intro hcon
    exact Option.noConfusion hcon
  | some bd =>
    simp only []
    rcases mp_run_shape inp.wr bd ([13, 10] ++ bd) (tailSize bd.length) inp.clen
        first rest with ⟨e, t, heq, -⟩ | ⟨d, b, t, heq, -⟩ <;> rw [heq]
    · rw [finalize_mode]
      intro hcon
      cases hcon
    · intro hcon
      cases hcon

lemma mp_upload_classified (inp : OtaIn) (first : List Nat)
    (rest : List (List Nat)) (bd : List Nat)
    (hc : mp_classify first = some bd) :
    (mp_upload inp first rest).mode = some UploadMode.multipart ∧
    (mp_upload inp first rest).boundary = some bd := by
  unfold mp_upload
  rw [hc]
  simp only []
  rcases mp_run_shape inp.wr bd ([13, 10] ++ bd) (tailSize bd.length) inp.clen
      first rest with ⟨e, t, heq, -⟩ | ⟨d, b, t, heq, -⟩ <;> rw [heq]
  · exact ⟨finalize_mode inp e t _ _, finalize_boundary inp e t _ _⟩
  · exact ⟨rfl, rfl⟩

lemma handle_upload_not_raw (inp : OtaIn) (first : List Nat)
    (rest : List (List Nat)) (hch : inp.chunks = first :: rest)
    (hlooks : looks_like_esp_idf_image first = false) :
    (handle_upload inp).mode ≠ some UploadMode.raw := by
  unfold handle_upload
  rw [hch]
  simp only []
  split_ifs with hb hm hne hlk
  · intro hcon; exact Option.noConfusion hcon
  · intro hcon; exact Option.noConfusion hcon
  · intro hcon; exact Option.noConfusion hcon
  · rw [hlooks] at hlk
    exact Bool.noConfusion hlk
  · exact mp_upload_not_raw inp first rest

lemma handle_upload_reject_unknown (inp : OtaIn) (first : List Nat)
    (rest : List (List Nat)) (hch : inp.chunks = first :: rest)
    (hb : inp.beginOk = true) (hm : inp.mallocOk = true)
    (hne : first.isEmpty = false)
    (hlooks : looks_like_esp_idf_image first = false)
    (hcl : mp_classify first = none) :
    handle_upload inp =
      ⟨false, [Ev.respErr "Unknown upload format", Ev.otaEnd], 0, none, none⟩ := by
  rw [handle_upload_mp_branch inp first rest hch hb hm hne hlooks]
  unfold mp_upload
  rw [hcl]

/-- C5 (amended): framing classification is decided from the first received
chunk only and is mutually exclusive — a first chunk beginning with `--` is
never RAW; a first chunk of at least 24 bytes beginning with the firmware
magic byte and satisfying the structural signature is RAW and never
MULTIPART; a first chunk that fails the signature check and does not start a
multipart boundary line is rejected rather than guessed. -/
theorem c5_amended_classification (inp : OtaIn) (first : List Nat)
    (rest : List (List Nat)) (hch : inp.chunks = first :: rest)
    (hb : inp.beginOk = true) (hm : inp.mallocOk = true) :
    (first.take 2 = [45, 45] → (handle_upload inp).mode ≠ some UploadMode.raw) ∧
    (24 ≤ first.length → first.getD 0 0 = 233 → 1 ≤ first.getD 1 0 →
      first.getD 1 0 ≤ 16 → first.getD 2 0 ≤ 5 → first.getD 3 0 ≠ 255 →
      first.getD 4 0 + first.getD 5 0 * 256 + first.getD 6 0 * 65536 +
        first.getD 7 0 * 16777216 ≠ 0 →
      first.getD 4 0 + first.getD 5 0 * 256 + first.getD 6 0 * 65536 +
        first.getD 7 0 * 16777216 ≠ 4294967295 →
      (handle_upload inp).mode = some UploadMode.raw ∧
      (handle_upload inp).mode ≠ some UploadMode.multipart) ∧
    (looks_like_esp_idf_image first = false → first.isEmpty = false →
      mp_classify first = none →
      (handle_upload inp).ok = false ∧
      (handle_upload inp).events =
        [Ev.respErr "Unknown upload format", Ev.otaEnd]) := by
  refine ⟨?_, ?_, ?_⟩
  · intro h2
    rcases take2_getD h2 with ⟨hA, hB⟩
    exact handle_upload_not_raw inp first rest hch (looks_false_of_dashes hA hB)
  · intro h24 hA hB hC hD hE hF hG
    have hlk := looks_true_of_sig h24 hA hB hC hD hE hF hG
    rw [handle_upload_raw_branch inp first rest hch hb hm hlk]
    rw [raw_upload_mode inp first rest]
    refine ⟨rfl, ?_⟩
    intro hcon
    rcases Option.some.inj hcon with hcon2
    exact UploadMode.noConfusion hcon2
  · intro hlk hne hcl
    rw [handle_upload_reject_unknown inp first rest hch hb hm hne hlk hcl]
    exact ⟨rfl, rfl⟩

/-- C10: RAW classification requires the first received chunk to be at least
24 bytes long; a shorter first chunk is never classified RAW, and unless it
begins a multipart boundary line the request is rejected as an unknown
format — classification depends on the transport's chunking of the first
read, not only on the stream's content. -/
theorem c10_short_first_chunk (inp : OtaIn) (first : List Nat)
    (rest : List (List Nat)) (hch : inp.chunks = first :: rest)
    (hb : inp.beginOk = true) (hm : inp.mallocOk = true)
    (hshort : first.length < 24) :
    (handle_upload inp).mode ≠ some UploadMode.raw ∧
    (first.isEmpty = false → mp_classify first = none →
      (handle_upload inp).ok = false ∧
      (handle_upload inp).events =
        [Ev.respErr "Unknown upload format", Ev.otaEnd]) := by
  have hlk := looks_false_of_short hshort
  refine ⟨handle_upload_not_raw inp first rest hch hlk, ?_⟩
  intro hne hcl
  rw [handle_upload_reject_unknown inp first rest hch hb hm hne hlk hcl]
  exact ⟨rfl, rfl⟩

lemma findCrlf_nonempty {b : List Nat} {c : Nat} (h : findCrlf b = some c) :
    b.isEmpty = false := by
  cases b
  · simp [findCrlf] at h
  · rfl

/-- C7 (amended): a multipart first line longer than 127 bytes does not fail
the request; the boundary token is silently truncated to the first 127 bytes
of the first chunk and that truncated token is used for extraction — the
request is classified MULTIPART. -/
theorem c7_amended_truncation (inp : OtaIn) (first : List Nat)
    (rest : List (List Nat)) (crlf : Nat) (hch : inp.chunks = first :: rest)
    (hb : inp.beginOk = true) (hm : inp.mallocOk = true)
    (hcr : findCrlf first = some crlf) (hlong : 128 ≤ crlf)
    (hd0 : first.getD 0 0 = 45) (hd1 : first.getD 1 0 = 45) :
    (handle_upload inp).mode = some UploadMode.multipart ∧
    (handle_upload inp).boundary = some (first.take 127) := by
  have hlk := looks_false_of_dashes hd0 hd1
  have hne := findCrlf_nonempty hcr
  have hcl : mp_classify first = some (first.take 127) := by
    have hcond : ¬(crlf < 2 ∨ first.getD 0 0 ≠ 45 ∨ first.getD 1 0 ≠ 45) := by
      push_neg
      exact ⟨by omega, hd0, hd1⟩
    unfold mp_classify
    rw [hcr]
    simp only []
    rw [if_neg hcond]
    rw [min_eq_right (show (127 : Nat) ≤ crlf by omega)]
  rw [handle_upload_mp_branch inp first rest hch hb hm hne hlk]
  exact mp_upload_classified inp first rest (first.take 127) hcl

/-! ## Concrete multipart bodies for C1 and C7 -/

/-- The boundary line `"--abc123\r\n"` as bytes. -/
def c1line : List Nat := [45, 45, 97, 98, 99, 49, 50, 51, 13, 10]

/-- A minimal part header `"A: b\r\n\r\n"` as bytes. -/
def c1hdr : List Nat := [65, 58, 32, 98, 13, 10, 13, 10]

/-- The end-of-part line `"\r\n--abc123--\r\n"` as bytes. -/
def c1term : List Nat :=
  [13, 10, 45, 45, 97, 98, 99, 49, 50, 51, 45, 45, 13, 10]

/-- A 37-byte multipart body whose firmware payload is `"HELLO"`
(payload occupies bytes 18-22, the end-of-part marker spans bytes 23-32). -/
def c1bodyA : List Nat := c1line ++ c1hdr ++ [72, 69, 76, 76, 79] ++ c1term

/-- `c1bodyA` delivered as a single chunk. -/
def c1inSingle : OtaIn :=
  ⟨true, true, [c1bodyA], 37, fun _ => true, true, true⟩

/-- `c1bodyA` delivered split at byte 25: the split point straddles the
end-of-part marker `"\r\n--abc123"`. -/
def c1inSplit : OtaIn :=
  ⟨true, true, [c1bodyA.take 25, c1bodyA.drop 25], 37, fun _ => true, true, true⟩

set_option maxRecDepth 200000 in
/-- C1 counterexample: the same multipart body delivered as one chunk
flushes exactly the payload `"HELLO"`, but delivered as two chunks split
inside the end-of-part marker it flushes different bytes (the boundary line
and part headers are re-flushed as payload), refuting the boundary-split
invariant as stated. -/
theorem c1_split_counterexample :
    flushed (handle_upload c1inSingle).events = [72, 69, 76, 76, 79] ∧
    (handle_upload c1inSingle).ok = true ∧
    (handle_upload c1inSplit).ok = true ∧
    flushed (handle_upload c1inSplit).events ≠
      flushed (handle_upload c1inSingle).events := by decide

/-- A 72-byte multipart body with boundary `abc123` and a 40-byte payload of
`'a'` bytes: header ends at byte 18, payload spans bytes 18-57, the
end-of-part marker spans bytes 58-67. -/
def c1bodyB : List Nat := c1line ++ c1hdr ++ List.replicate 40 97 ++ c1term

/-- `c1bodyB` delivered as a single chunk. -/
def c1inB : OtaIn := ⟨true, true, [c1bodyB], 72, fun _ => true, true, true⟩

/-- `c1bodyB` delivered as two chunks split at byte `k`. -/
def c1inBAt (k : Nat) : OtaIn :=
  ⟨true, true, [c1bodyB.take k, c1bodyB.drop k], 72, fun _ => true, true, true⟩

set_option maxRecDepth 200000 in
/-- C1 (amended): extraction is split-invariant only once the window of the
payload-start iteration extends at least `TAIL` bytes past the payload start:
for this body (payload starts at 18, `TAIL = 32`) every two-chunk split at
`k ≥ 50` — which includes every split straddling the end-of-part marker at
bytes 58-67 — flushes bytes identical to single-chunk delivery.  (Splits with
`18 ≤ k < 50` re-flush header bytes, as the counterexample shows.) -/
theorem c1_amended_split_invariant :
    ∀ k : Nat, k < 73 → 50 ≤ k →
      flushed (handle_upload (c1inBAt k)).events =
        flushed (handle_upload c1inB).events := by decide

/-- Witness for the amended C1 theorem at `k = 60`, a split point inside the
end-of-part marker. -/
theorem c1_amended_witness :
    flushed (handle_upload (c1inBAt 60)).events =
      flushed (handle_upload c1inB).events :=
  c1_amended_split_invariant 60 (by decide) (by decide)

/-- A multipart first line of 130 bytes: `"--"` followed by 128 `'a'` bytes
and CRLF — longer than the 127-byte boundary buffer. -/
def c7line : List Nat := [45, 45] ++ List.replicate 128 97 ++ [13, 10]

/-- Terminating line matching `c7line`. -/
def c7term : List Nat :=
  [13, 10, 45, 45] ++ List.replicate 128 97 ++ [45, 45, 13, 10]

/-- A 279-byte multipart body with the oversized boundary and payload
`"PAY"`. -/
def c7body : List Nat := c7line ++ c1hdr ++ [80, 65, 89] ++ c7term

/-- `c7body` delivered as a single chunk. -/
def c7in : OtaIn := ⟨true, true, [c7body], 279, fun _ => true, true, true⟩

set_option maxRecDepth 200000 in
/-- C7 counterexample: a multipart upload whose first line is 130 bytes long
(exceeding the 127-byte boundary buffer) is not rejected as a fatal format
error — the upload completes successfully (restart issued) using the
silently truncated 127-byte boundary token. -/
theorem c7_long_boundary_counterexample :
    findCrlf c7body = some 130 ∧
    (handle_upload c7in).ok = true ∧
    restartCount (handle_upload c7in).events = 1 ∧
    (handle_upload c7in).boundary = some (c7body.take 127) ∧
    flushed (handle_upload c7in).events = [80, 65, 89] := by decide

set_option maxRecDepth 200000 in
/-- Witness for the amended C7 theorem at the concrete oversized-boundary
body. -/
theorem c7_amended_witness :
    (handle_upload c7in).mode = some UploadMode.multipart ∧
    (handle_upload c7in).boundary = some (c7body.take 127) :=
  c7_amended_truncation c7in c7body [] 130 rfl rfl rfl (by decide) (by decide)
    (by decide) (by decide)

/-! ## Concrete first chunks for C5 and C10 -/

/-- A 10-byte first chunk satisfying every enumerated signature condition
(magic `0xE9`, segment count 1, mode 0, byte 3 ≠ `0xFF`, entry address 1)
but shorter than the 24 bytes the sniffer requires. -/
def c5short : List Nat := [233, 1, 0, 0, 1, 0, 0, 0, 0, 0]

/-- Upload delivering only `c5short`. -/
def c5shortIn : OtaIn := ⟨true, true, [c5short], 10, fun _ => true, true, true⟩

set_option maxRecDepth 200000 in
/-- C5 counterexample: a first chunk that begins with the firmware magic byte
and satisfies the claim's structural signature (segment count in 1..16, mode
byte ≤ 5, byte 3 ≠ 0xFF, entry address neither 0 nor 0xFFFFFFFF) is
nevertheless not classified RAW, because it is shorter than 24 bytes; the
request is rejected instead. -/
theorem c5_short_signature_counterexample :
    (c5short.getD 0 0 = 233 ∧ 1 ≤ c5short.getD 1 0 ∧ c5short.getD 1 0 ≤ 16 ∧
      c5short.getD 2 0 ≤ 5 ∧ c5short.getD 3 0 ≠ 255 ∧
      c5short.getD 4 0 + c5short.getD 5 0 * 256 + c5short.getD 6 0 * 65536 +
        c5short.getD 7 0 * 16777216 ≠ 0 ∧
      c5short.getD 4 0 + c5short.getD 5 0 * 256 + c5short.getD 6 0 * 65536 +
        c5short.getD 7 0 * 16777216 ≠ 4294967295) ∧
    (handle_upload c5shortIn).mode ≠ some UploadMode.raw ∧
    (handle_upload c5shortIn).ok = false := by decide

/-- A 24-byte chunk with a valid ESP-IDF image header prefix. -/
def c5raw24 : List Nat :=
  [233, 1, 0, 0, 1, 0, 0, 0] ++ List.replicate 16 0

/-- Upload delivering only `c5raw24`. -/
def c5raw24In : OtaIn := ⟨true, true, [c5raw24], 24, fun _ => true, true, true⟩

/-- Witness for the amended C5 theorem: a 24-byte valid header is classified
RAW. -/
theorem c5_amended_witness :
    (handle_upload c5raw24In).mode = some UploadMode.raw :=
  ((c5_amended_classification c5raw24In c5raw24 [] rfl rfl rfl).2.1
    (by decide) (by decide) (by decide) (by decide) (by decide) (by decide)
    (by decide) (by decide)).1

/-- An 8-byte first chunk bearing a valid firmware-header prefix. -/
def c10short : List Nat := [233, 1, 0, 0, 1, 0, 0, 0]

/-- Upload delivering only `c10short`. -/
def c10shortIn : OtaIn := ⟨true, true, [c10short], 8, fun _ => true, true, true⟩

/-- Witness for C10: an 8-byte chunk opening a valid firmware image is not
classified RAW and the request is rejected as an unknown format. -/
theorem c10_witness :
    (handle_upload c10shortIn).mode ≠ some UploadMode.raw ∧
    (handle_upload c10shortIn).events =
      [Ev.respErr "Unknown upload format", Ev.otaEnd] := by
  have h := c10_short_first_chunk c10shortIn c10short [] rfl rfl rfl (by decide)
  exact ⟨h.1, (h.2 (by decide) (by decide)).2⟩

/-! ## Witnesses for C3, C4 and C8 -/

/-- An upload whose single chunk has no CRLF: rejected as unknown format. -/
def c3in : OtaIn := ⟨true, true, [[1, 2, 3]], 3, fun _ => true, true, true⟩

/-- Witness for C3 at a concrete request. -/
theorem c3_witness : endCount (handle_upload c3in).events = 1 :=
  c3_single_finalization c3in rfl

/-- Same concrete request, used as the C4 witness input. -/
def c4in : OtaIn := ⟨true, true, [[4, 5, 6]], 3, fun _ => true, true, true⟩

/-- Witness for C4 at a concrete request that writes zero payload bytes. -/
theorem c4_witness :
    (handle_upload c4in).ok = false ∧
    setBootCount (handle_upload c4in).events = 0 ∧
    restartCount (handle_upload c4in).events = 0 ∧
    endCount (handle_upload c4in).events = 1 ∧
    1 ≤ errCount (handle_upload c4in).events :=
  c4_empty_payload_rejected c4in rfl (by decide)

/-- A valid 24-byte ESP-IDF header prefix (magic `0xE9`, 2 segments, mode 0,
flash byte `0x20`, entry `0x40001000`). -/
def c8hdr : List Nat := [233, 2, 0, 32, 0, 16, 0, 64] ++ List.replicate 16 0

/-- The 6 KB first chunk of the 10 KB raw image. -/
def c8chunk1 : List Nat := c8hdr ++ List.replicate 6120 0

/-- The 4 KB second chunk of the 10 KB raw image. -/
def c8chunk2 : List Nat := List.replicate 4096 7

lemma c8chunk1_length : c8chunk1.length = 6144 := by
  unfold c8chunk1 c8hdr
  rw [List.length_append, List.length_append, List.length_replicate,
    List.length_replicate]
  decide

lemma c8chunk2_length : c8chunk2.length = 4096 := by
  unfold c8chunk2
  rw [List.length_replicate]

lemma c8chunk1_getD (i : Nat) (hi : i < 8) :
    c8chunk1.getD i 0 = ([233, 2, 0, 32, 0, 16, 0, 64] : List Nat).getD i 0 := by
  unfold c8chunk1 c8hdr
  rw [List.append_assoc]
  rw [List.getD_append _ _ _ _ (by simp; omega)]

lemma c8chunk1_looks : looks_like_esp_idf_image c8chunk1 = true := by
  have h0 := c8chunk1_getD 0 (by omega)
  have h1 := c8chunk1_getD 1 (by omega)
  have h2 := c8chunk1_getD 2 (by omega)
  have h3 := c8chunk1_getD 3 (by omega)
  have h4 := c8chunk1_getD 4 (by omega)
  have h5 := c8chunk1_getD 5 (by omega)
  have h6 := c8chunk1_getD 6 (by omega)
  have h7 := c8chunk1_getD 7 (by omega)
  refine looks_true_of_sig (by rw [c8chunk1_length]; omega) ?_ ?_ ?_ ?_ ?_ ?_ ?_
  · rw [h0]
    decide
  · rw [h1]
    decide
  · rw [h1]
    decide
  · rw [h2]
    decide
  · rw [h3]
    decide
  · rw [h4, h5, h6, h7]
    decide
  · rw [h4, h5, h6, h7]
    decide

/-- Witness for C8: the spec's concrete scenario — a 10 KB firmware image
with magic byte `0xE9` sent as a 6 KB and a 4 KB chunk — yields
`total_written = 10240` and activates the new partition. -/
theorem c8_witness :
    (handle_upload ⟨true, true, [c8chunk1, c8chunk2], 10240,
      fun _ => true, true, true⟩).totalWritten = 10240 ∧
    (handle_upload ⟨true, true, [c8chunk1, c8chunk2], 10240,
      fun _ => true, true, true⟩).ok = true ∧
    setBootCount (handle_upload ⟨true, true, [c8chunk1, c8chunk2], 10240,
      fun _ => true, true, true⟩).events = 1 ∧
    restartCount (handle_upload ⟨true, true, [c8chunk1, c8chunk2], 10240,
      fun _ => true, true, true⟩).events = 1 := by
  have h := c8_raw_forwarding c8chunk1 [c8chunk2] 10240 c8chunk1_looks
    (by
      intro c hc
      rcases List.mem_singleton.mp hc with rfl
      rfl)
    (by
      rw [c8chunk1_length]
      simp only [List.map_cons, List.map_nil, List.sum_cons, List.sum_nil,
        c8chunk2_length]
      decide)
  exact ⟨h.1, h.2.1, h.2.2.2.2.1, h.2.2.2.2.2⟩

/-! ## Field-level facts about the parameter-application phase -/

lemma setSsid_keeps_WifiConfig (c : WebCfg) (ps : List (String × String)) :
    (setSsid c ps).WifiConfig = c.WifiConfig := by
  rcases hgp : getParam ps "wifiSSID" with _ | v <;> simp [setSsid, hgp]

lemma setSsid_keeps_wifi_password (c : WebCfg) (ps : List (String × String)) :
    (setSsid c ps).wifi_password = c.wifi_password := by
  rcases hgp : getParam ps "wifiSSID" with _ | v <;> simp [setSsid, hgp]

lemma setSsid_keeps_old_wifi_ssid (c : WebCfg) (ps : List (String × String)) :
    (setSsid c ps).old_wifi_ssid = c.old_wifi_ssid := by
  rcases hgp : getParam ps "wifiSSID" with _ | v <;> simp [setSsid, hgp]

lemma setSsid_keeps_old_wifi_password (c : WebCfg) (ps : List (String × String)) :
    (setSsid c ps).old_wifi_password = c.old_wifi_password := by
  rcases hgp : getParam ps "wifiSSID" with _ | v <;> simp [setSsid, hgp]

lemma setSsid_keeps_hostname (c : WebCfg) (ps : List (String × String)) :
    (setSsid c ps).hostname = c.hostname := by
  rcases hgp : getParam ps "wifiSSID" with _ | v <;> simp [setSsid, hgp]

lemma setSsid_keeps_http_login (c : WebCfg) (ps : List (String × String)) :
    (setSsid c ps).http_login = c.http_login := by
  rcases hgp : getParam ps "wifiSSID" with _ | v <;> simp [setSsid, hgp]

lemma setSsid_keeps_http_password (c : WebCfg) (ps : List (String × String)) :
    (setSsid c ps).http_password = c.http_password := by
  rcases hgp : getParam ps "wifiSSID" with _ | v <;> simp [setSsid, hgp]

lemma setSsid_keeps_Sensitivity (c : WebCfg) (ps : List (String × String)) :
    (setSsid c ps).Sensitivity = c.Sensitivity := by
  rcases hgp : getParam ps "wifiSSID" with _ | v <;> simp [setSsid, hgp]

lemma setSsid_acts (c : WebCfg) (ps : List (String × String)) :
    (setSsid c ps).wifi_ssid =
      (match getParam ps "wifiSSID" with
       | some v => v.take 31
       | none => c.wifi_ssid) := by
  rcases hgp : getParam ps "wifiSSID" with _ | v <;> simp [setSsid, hgp]

lemma setPw_keeps_WifiConfig (c : WebCfg) (ps : List (String × String)) :
    (setPw c ps).WifiConfig = c.WifiConfig := by
  rcases hgp : getParam ps "wifiPassword" with _ | v <;> simp [setPw, hgp]

lemma setPw_keeps_wifi_ssid (c : WebCfg) (ps : List (String × String)) :
    (setPw c ps).wifi_ssid = c.wifi_ssid := by
  rcases hgp : getParam ps "wifiPassword" with _ | v <;> simp [setPw, hgp]

lemma setPw_keeps_old_wifi_ssid (c : WebCfg) (ps : List (String × String)) :
    (setPw c ps).old_wifi_ssid = c.old_wifi_ssid := by
  rcases hgp : getParam ps "wifiPassword" with _ | v <;> simp [setPw, hgp]

lemma setPw_keeps_old_wifi_password (c : WebCfg) (ps : List (String × String)) :
    (setPw c ps).old_wifi_password = c.old_wifi_password := by
  rcases hgp : getParam ps "wifiPassword" with _ | v <;> simp [setPw, hgp]

lemma setPw_keeps_hostname (c : WebCfg) (ps : List (String × String)) :
    (setPw c ps).hostname = c.hostname := by
  rcases hgp : getParam ps "wifiPassword" with _ | v <;> simp [setPw, hgp]

lemma setPw_keeps_http_login (c : WebCfg) (ps : List (String × String)) :
    (setPw c ps).http_login = c.http_login := by
  rcases hgp : getParam ps "wifiPassword" with _ | v <;> simp [setPw, hgp]

lemma setPw_keeps_http_password (c : WebCfg) (ps : List (String × String)) :
    (setPw c ps).http_password = c.http_password := by
  rcases hgp : getParam ps "wifiPassword" with _ | v <;> simp [setPw, hgp]

lemma setPw_keeps_Sensitivity (c : WebCfg) (ps : List (String × String)) :
    (setPw c ps).Sensitivity = c.Sensitivity := by
  rcases hgp : getParam ps "wifiPassword" with _ | v <;> simp [setPw, hgp]

lemma setPw_acts (c : WebCfg) (ps : List (String × String)) :
    (setPw c ps).wifi_password =
      (match getParam ps "wifiPassword" with
       | some v => v.take 63
       | none => c.wifi_password) := by
  rcases hgp : getParam ps "wifiPassword" with _ | v <;> simp [setPw, hgp]

lemma setLogin_keeps_WifiConfig (c : WebCfg) (ps : List (String × String)) :
    (setLogin c ps).WifiConfig = c.WifiConfig := by
  rcases hgp : getParam ps "httpLogin" with _ | v <;> simp [setLogin, hgp]

lemma setLogin_keeps_wifi_ssid (c : WebCfg) (ps : List (String × String)) :
    (setLogin c ps).wifi_ssid = c.wifi_ssid := by
  rcases hgp : getParam ps "httpLogin" with _ | v <;> simp [setLogin, hgp]

lemma setLogin_keeps_wifi_password (c : WebCfg) (ps : List (String × String)) :
    (setLogin c ps).wifi_password = c.wifi_password := by
  rcases hgp : getParam ps "httpLogin" with _ | v <;> simp [setLogin, hgp]

lemma setLogin_keeps_old_wifi_ssid (c : WebCfg) (ps : List (String × String)) :
    (setLogin c ps).old_wifi_ssid = c.old_wifi_ssid := by
  rcases hgp : getParam ps "httpLogin" with _ | v <;> simp [setLogin, hgp]

lemma setLogin_keeps_old_wifi_password (c : WebCfg) (ps : List (String × String)) :
    (setLogin c ps).old_wifi_password = c.old_wifi_password := by
  rcases hgp : getParam ps "httpLogin" with _ | v <;> simp [setLogin, hgp]

lemma setLogin_keeps_hostname (c : WebCfg) (ps : List (String × String)) :
    (setLogin c ps).hostname = c.hostname := by
  rcases hgp : getParam ps "httpLogin" with _ | v <;> simp [setLogin, hgp]

lemma setLogin_keeps_http_password (c : WebCfg) (ps : List (String × String)) :
    (setLogin c ps).http_password = c.http_password := by
  rcases hgp : getParam ps "httpLogin" with _ | v <;> simp [setLogin, hgp]

lemma setLogin_keeps_Sensitivity (c : WebCfg) (ps : List (String × String)) :
    (setLogin c ps).Sensitivity = c.Sensitivity := by
  rcases hgp : getParam ps "httpLogin" with _ | v <;> simp [setLogin, hgp]

lemma setLogin_acts (c : WebCfg) (ps : List (String × String)) :
    (setLogin c ps).http_login =
      (match getParam ps "httpLogin" with
       | some v => v.take 31
       | none => c.http_login) := by
  rcases hgp : getParam ps "httpLogin" with _ | v <;> simp [setLogin, hgp]

lemma setHPw_keeps_WifiConfig (c : WebCfg) (ps : List (String × String)) :
    (setHPw c ps).WifiConfig = c.WifiConfig := by
  rcases hgp : getParam ps "httpPassword" with _ | v <;> simp [setHPw, hgp]

lemma setHPw_keeps_wifi_ssid (c : WebCfg) (ps : List (String × String)) :
    (setHPw c ps).wifi_ssid = c.wifi_ssid := by
  rcases hgp : getParam ps "httpPassword" with _ | v <;> simp [setHPw, hgp]

lemma setHPw_keeps_wifi_password (c : WebCfg) (ps : List (String × String)) :
    (setHPw c ps).wifi_password = c.wifi_password := by
  rcases hgp : getParam ps "httpPassword" with _ | v <;> simp [setHPw, hgp]

lemma setHPw_keeps_old_wifi_ssid (c : WebCfg) (ps : List (String × String)) :
    (setHPw c ps).old_wifi_ssid = c.old_wifi_ssid := by
  rcases hgp : getParam ps "httpPassword" with _ | v <;> simp [setHPw, hgp]

lemma setHPw_keeps_old_wifi_password (c : WebCfg) (ps : List (String × String)) :
    (setHPw c ps).old_wifi_password = c.old_wifi_password := by
  rcases hgp : getParam ps "httpPassword" with _ | v <;> simp [setHPw, hgp]

lemma setHPw_keeps_hostname (c : WebCfg) (ps : List (String × String)) :
    (setHPw c ps).hostname = c.hostname := by
  rcases hgp : getParam ps "httpPassword" with _ | v <;> simp [setHPw, hgp]

lemma setHPw_keeps_http_login (c : WebCfg) (ps : List (String × String)) :
    (setHPw c ps).http_login = c.http_login := by
  rcases hgp : getParam ps "httpPassword" with _ | v <;> simp [setHPw, hgp]

lemma setHPw_keeps_Sensitivity (c : WebCfg) (ps : List (String × String)) :
    (setHPw c ps).Sensitivity = c.Sensitivity := by
  rcases hgp : getParam ps "httpPassword" with _ | v <;> simp [setHPw, hgp]

lemma setHPw_acts (c : WebCfg) (ps : List (String × String)) :
    (setHPw c ps).http_password =
      (match getParam ps "httpPassword" with
       | some v => v.take 63
       | none => c.http_password) := by
  rcases hgp : getParam ps "httpPassword" with _ | v <;> simp [setHPw, hgp]

lemma setHost_keeps_WifiConfig (c : WebCfg) (ps : List (String × String)) :
    (setHost c ps).WifiConfig = c.WifiConfig := by
  rcases hgp : getParam ps "hostname" with _ | v <;> simp [setHost, hgp]

lemma setHost_keeps_wifi_ssid (c : WebCfg) (ps : List (String × String)) :
    (setHost c ps).wifi_ssid = c.wifi_ssid := by
  rcases hgp : getParam ps "hostname" with _ | v <;> simp [setHost, hgp]

lemma setHost_keeps_wifi_password (c : WebCfg) (ps : List (String × String)) :
    (setHost c ps).wifi_password = c.wifi_password := by
  rcases hgp : getParam ps "hostname" with _ | v <;> simp [setHost, hgp]

lemma setHost_keeps_old_wifi_ssid (c : WebCfg) (ps : List (String × String)) :
    (setHost c ps).old_wifi_ssid = c.old_wifi_ssid := by
  rcases hgp : getParam ps "hostname" with _ | v <;> simp [setHost, hgp]

lemma setHost_keeps_old_wifi_password (c : WebCfg) (ps : List (String × String)) :
    (setHost c ps).old_wifi_password = c.old_wifi_password := by
  rcases hgp : getParam ps "hostname" with _ | v <;> simp [setHost, hgp]

lemma setHost_keeps_http_login (c : WebCfg) (ps : List (String × String)) :
    (setHost c ps).http_login = c.http_login := by
  rcases hgp : getParam ps "hostname" with _ | v <;> simp [setHost, hgp]

lemma setHost_keeps_http_password (c : WebCfg) (ps : List (String × String)) :
    (setHost c ps).http_password = c.http_password := by
  rcases hgp : getParam ps "hostname" with _ | v <;> simp [setHost, hgp]

lemma setHost_keeps_Sensitivity (c : WebCfg) (ps : List (String × String)) :
    (setHost c ps).Sensitivity = c.Sensitivity := by
  rcases hgp : getParam ps "hostname" with _ | v <;> simp [setHost, hgp]

lemma setHost_acts (c : WebCfg) (ps : List (String × String)) :
    (setHost c ps).hostname =
      (match getParam ps "hostname" with
       | some v => v.take 31
       | none => c.hostname) := by
  rcases hgp : getParam ps "hostname" with _ | v <;> simp [setHost, hgp]

lemma setSens_keeps_WifiConfig (c : WebCfg) (ps : List (String × String)) :
    (setSens c ps).WifiConfig = c.WifiConfig := by
  rcases hgp : getParam ps "Sensitivity" with _ | v <;> simp [setSens, hgp]

lemma setSens_keeps_wifi_ssid (c : WebCfg) (ps : List (String × String)) :
    (setSens c ps).wifi_ssid = c.wifi_ssid := by
  rcases hgp : getParam ps "Sensitivity" with _ | v <;> simp [setSens, hgp]

lemma setSens_keeps_wifi_password (c : WebCfg) (ps : List (String × String)) :
    (setSens c ps).wifi_password = c.wifi_password := by
  rcases hgp : getParam ps "Sensitivity" with _ | v <;> simp [setSens, hgp]

lemma setSens_keeps_old_wifi_ssid (c : WebCfg) (ps : List (String × String)) :
    (setSens c ps).old_wifi_ssid = c.old_wifi_ssid := by
  rcases hgp : getParam ps "Sensitivity" with _ | v <;> simp [setSens, hgp]

lemma setSens_keeps_old_wifi_password (c : WebCfg) (ps : List (String × String)) :
    (setSens c ps).old_wifi_password = c.old_wifi_password := by
  rcases hgp : getParam ps "Sensitivity" with _ | v <;> simp [setSens, hgp]

lemma setSens_keeps_hostname (c : WebCfg) (ps : List (String × String)) :
    (setSens c ps).hostname = c.hostname := by
  rcases hgp : getParam ps "Sensitivity" with _ | v <;> simp [setSens, hgp]

lemma setSens_keeps_http_login (c : WebCfg) (ps : List (String × String)) :
    (setSens c ps).http_login = c.http_login := by
  rcases hgp : getParam ps "Sensitivity" with _ | v <;> simp [setSens, hgp]

lemma setSens_keeps_http_password (c : WebCfg) (ps : List (String × String)) :
    (setSens c ps).http_password = c.http_password := by
  rcases hgp : getParam ps "Sensitivity" with _ | v <;> simp [setSens, hgp]

lemma setSens_acts (c : WebCfg) (ps : List (String × String)) :
    (setSens c ps).Sensitivity =
      (match getParam ps "Sensitivity" with
       | some v => clamp255 (atoiC v)
       | none => c.Sensitivity) := by
  rcases hgp : getParam ps "Sensitivity" with _ | v <;> simp [setSens, hgp]

lemma backupOld_keeps_WifiConfig (c : WebCfg) : (backupOld c).WifiConfig = c.WifiConfig := by
  cases c; rfl

lemma backupOld_keeps_wifi_ssid (c : WebCfg) : (backupOld c).wifi_ssid = c.wifi_ssid := by
  cases c; rfl

lemma backupOld_keeps_wifi_password (c : WebCfg) : (backupOld c).wifi_password = c.wifi_password := by
  cases c; rfl

lemma backupOld_keeps_hostname (c : WebCfg) : (backupOld c).hostname = c.hostname := by
  cases c; rfl

lemma backupOld_keeps_http_login (c : WebCfg) : (backupOld c).http_login = c.http_login := by
  cases c; rfl

lemma backupOld_keeps_http_password (c : WebCfg) : (backupOld c).http_password = c.http_password := by
  cases c; rfl

lemma backupOld_keeps_Sensitivity (c : WebCfg) : (backupOld c).Sensitivity = c.Sensitivity := by
  cases c; rfl

lemma backupOld_old_ssid (c : WebCfg) :
    (backupOld c).old_wifi_ssid = c.wifi_ssid.take 31 := by
  simp [backupOld]

lemma backupOld_old_pw (c : WebCfg) :
    (backupOld c).old_wifi_password = c.wifi_password.take 63 := by
  simp [backupOld]

lemma apply_params_old_ssid (cfg : WebCfg) (ps : List (String × String)) :
    (apply_params cfg ps).old_wifi_ssid = cfg.wifi_ssid.take 31 := by
  unfold apply_params
  rw [setSens_keeps_old_wifi_ssid, setHost_keeps_old_wifi_ssid, setHPw_keeps_old_wifi_ssid, setLogin_keeps_old_wifi_ssid, setPw_keeps_old_wifi_ssid, setSsid_keeps_old_wifi_ssid, backupOld_old_ssid]

lemma apply_params_old_pw (cfg : WebCfg) (ps : List (String × String)) :
    (apply_params cfg ps).old_wifi_password = cfg.wifi_password.take 63 := by
  unfold apply_params
  rw [setSens_keeps_old_wifi_password, setHost_keeps_old_wifi_password, setHPw_keeps_old_wifi_password, setLogin_keeps_old_wifi_password, setPw_keeps_old_wifi_password, setSsid_keeps_old_wifi_password, backupOld_old_pw]

lemma apply_params_wc (cfg : WebCfg) (ps : List (String × String)) :
    (apply_params cfg ps).WifiConfig = cfg.WifiConfig := by
  unfold apply_params
  rw [setSens_keeps_WifiConfig, setHost_keeps_WifiConfig, setHPw_keeps_WifiConfig, setLogin_keeps_WifiConfig, setPw_keeps_WifiConfig, setSsid_keeps_WifiConfig, backupOld_keeps_WifiConfig]

lemma apply_params_ssid (cfg : WebCfg) (ps : List (String × String)) :
    (apply_params cfg ps).wifi_ssid = (match getParam ps "wifiSSID" with
       | some v => v.take 31
       | none => cfg.wifi_ssid) := by
  unfold apply_params
  rw [setSens_keeps_wifi_ssid, setHost_keeps_wifi_ssid, setHPw_keeps_wifi_ssid, setLogin_keeps_wifi_ssid, setPw_keeps_wifi_ssid, setSsid_acts, backupOld_keeps_wifi_ssid]

lemma apply_params_pw (cfg : WebCfg) (ps : List (String × String)) :
    (apply_params cfg ps).wifi_password = (match getParam ps "wifiPassword" with
       | some v => v.take 63
       | none => cfg.wifi_password) := by
  unfold apply_params
  rw [setSens_keeps_wifi_password, setHost_keeps_wifi_password, setHPw_keeps_wifi_password, setLogin_keeps_wifi_password, setPw_acts, setSsid_keeps_wifi_password, backupOld_keeps_wifi_password]

lemma apply_params_host (cfg : WebCfg) (ps : List (String × String)) :
    (apply_params cfg ps).hostname = (match getParam ps "hostname" with
       | some v => v.take 31
       | none => cfg.hostname) := by
  unfold apply_params
  rw [setSens_keeps_hostname, setHost_acts, setHPw_keeps_hostname, setLogin_keeps_hostname, setPw_keeps_hostname, setSsid_keeps_hostname, backupOld_keeps_hostname]

lemma apply_params_login (cfg : WebCfg) (ps : List (String × String)) :
    (apply_params cfg ps).http_login = (match getParam ps "httpLogin" with
       | some v => v.take 31
       | none => cfg.http_login) := by
  unfold apply_params
  rw [setSens_keeps_http_login, setHost_keeps_http_login, setHPw_keeps_http_login, setLogin_acts, setPw_keeps_http_login, setSsid_keeps_http_login, backupOld_keeps_http_login]

lemma apply_params_hpw (cfg : WebCfg) (ps : List (String × String)) :
    (apply_params cfg ps).http_password = (match getParam ps "httpPassword" with
       | some v => v.take 63
       | none => cfg.http_password) := by
  unfold apply_params
  rw [setSens_keeps_http_password, setHost_keeps_http_password, setHPw_acts, setLogin_keeps_http_password, setPw_keeps_http_password, setSsid_keeps_http_password, backupOld_keeps_http_password]

lemma apply_params_sens (cfg : WebCfg) (ps : List (String × String)) :
    (apply_params cfg ps).Sensitivity = (match getParam ps "Sensitivity" with
       | some v => clamp255 (atoiC v)
       | none => cfg.Sensitivity) := by
  unfold apply_params
  rw [setSens_acts, setHost_keeps_Sensitivity, setHPw_keeps_Sensitivity, setLogin_keeps_Sensitivity, setPw_keeps_Sensitivity, setSsid_keeps_Sensitivity, backupOld_keeps_Sensitivity]

/-! ## C6: the propose flow -/

/-- C6: on a credential change the handler backs up the current credentials
into the `old` fields, overwrites the current credentials with the proposed
values, stages `WifiConfig = 0xAAAA` (TEST_PENDING), persists the record
before attempting the join, renders the interim page, attempts the join, and
persists `0x5555` (STABLE) on success or `0xAAAA` on failure — restarting in
both outcomes, never returning to normal operation. -/
theorem c6_propose_flow (cfg : WebCfg) (ps : List (String × String)) (j : Bool)
    (h : (getParam ps "wifiSSID").isSome ∨ (getParam ps "wifiPassword").isSome) :
    handle_query_wifi cfg ps j =
      ({ apply_params cfg ps with WifiConfig := if j then 0x5555 else 0xAAAA },
       [WebEv.save { apply_params cfg ps with WifiConfig := 0xAAAA },
        WebEv.render,
        WebEv.sta (apply_params cfg ps).wifi_ssid
          (apply_params cfg ps).wifi_password,
        WebEv.save { apply_params cfg ps with
          WifiConfig := if j then 0x5555 else 0xAAAA },
        WebEv.reboot], false) ∧
    (apply_params cfg ps).old_wifi_ssid = cfg.wifi_ssid.take 31 ∧
    (apply_params cfg ps).old_wifi_password = cfg.wifi_password.take 63 ∧
    (apply_params cfg ps).wifi_ssid =
      (match getParam ps "wifiSSID" with
       | some v => v.take 31
       | none => cfg.wifi_ssid) ∧
    (apply_params cfg ps).wifi_password =
      (match getParam ps "wifiPassword" with
       | some v => v.take 63
       | none => cfg.wifi_password) := by
  have hcond : ((getParam ps "wifiSSID").isSome ||
      (getParam ps "wifiPassword").isSome) = true := by
    rcases h with h | h <;> simp [h]
  refine ⟨?_, apply_params_old_ssid cfg ps, apply_params_old_pw cfg ps,
    apply_params_ssid cfg ps, apply_params_pw cfg ps⟩
  unfold handle_query_wifi apply_new_cfg_and_test
  simp only []
  rw [if_pos hcond]
  cases j
  · rfl
  · rfl

/-! ## C9: non-credential settings changes -/

/-- The configuration used for the C9 counterexample: the persisted
`old_wifi_ssid` (`"X"`) differs from the current `wifi_ssid` (`"Y"`). -/
def c9cfg : WebCfg := ⟨0x5555, "Y", "pw", "X", "opw", "h", "l", "p", 1⟩

/-- A request that submits only a hostname — no credential keys. -/
def c9ps : List (String × String) := [("hostname", "newhost")]

set_option maxRecDepth 100000 in
/-- C9 counterexample: a request without `wifiSSID`/`wifiPassword` keys still
modifies (and persists) the `old_wifi_ssid`/`old_wifi_password` fields — the
handler unconditionally backs up the current credentials into them — so the
claim that no field other than the submitted settings is modified is false. -/
theorem c9_nonwifi_counterexample :
    getParam c9ps "wifiSSID" = none ∧ getParam c9ps "wifiPassword" = none ∧
    (handle_query_wifi c9cfg c9ps false).2.2 = true ∧
    (handle_query_wifi c9cfg c9ps false).1.old_wifi_ssid ≠
      c9cfg.old_wifi_ssid ∧
    WebEv.save (handle_query_wifi c9cfg c9ps false).1 ∈
      (handle_query_wifi c9cfg c9ps false).2.1 := by decide

/-- C9 (amended): on a request without credential keys the handler only
persists the submitted settings and re-renders: `wifi_ssid`, `wifi_password`
and `wifi_config_state` are unchanged, no join test is run, the device is not
restarted — but `old_wifi_ssid`/`old_wifi_password` are overwritten with the
current credentials by the handler's unconditional backup. -/
theorem c9_amended_frame (cfg : WebCfg) (ps : List (String × String)) (j : Bool)
    (h1 : getParam ps "wifiSSID" = none)
    (h2 : getParam ps "wifiPassword" = none) :
    handle_query_wifi cfg ps j =
      (apply_params cfg ps,
       [WebEv.save (apply_params cfg ps), WebEv.render], true) ∧
    (apply_params cfg ps).wifi_ssid = cfg.wifi_ssid ∧
    (apply_params cfg ps).wifi_password = cfg.wifi_password ∧
    (apply_params cfg ps).WifiConfig = cfg.WifiConfig ∧
    (apply_params cfg ps).old_wifi_ssid = cfg.wifi_ssid.take 31 ∧
    (apply_params cfg ps).old_wifi_password = cfg.wifi_password.take 63 ∧
    (apply_params cfg ps).hostname =
      (match getParam ps "hostname" with
       | some v => v.take 31
       | none => cfg.hostname) ∧
    (apply_params cfg ps).http_login =
      (match getParam ps "httpLogin" with
       | some v => v.take 31
       | none => cfg.http_login) ∧
    (apply_params cfg ps).http_password =
      (match getParam ps "httpPassword" with
       | some v => v.take 63
       | none => cfg.http_password) ∧
    (apply_params cfg ps).Sensitivity =
      (match getParam ps "Sensitivity" with
       | some v => clamp255 (atoiC v)
       | none => cfg.Sensitivity) := by
  refine ⟨?_, ?_, ?_, apply_params_wc cfg ps, apply_params_old_ssid cfg ps,
    apply_params_old_pw cfg ps, apply_params_host cfg ps,
    apply_params_login cfg ps, apply_params_hpw cfg ps,
    apply_params_sens cfg ps⟩
  · unfold handle_query_wifi
    simp only []
    rw [if_neg (by simp [h1, h2])]
  · rw [apply_params_ssid cfg ps, h1]
  · rw [apply_params_pw cfg ps, h2]

set_option maxRecDepth 100000 in
/-- Witness for the amended C9 theorem at a concrete non-credential
request. -/
theorem c9_amended_witness :
    handle_query_wifi c9cfg c9ps true =
      (apply_params c9cfg c9ps,
       [WebEv.save (apply_params c9cfg c9ps), WebEv.render], true) :=
  (c9_amended_frame c9cfg c9ps true (by decide) (by decide)).1

/-! ## C2: two consecutive join failures -/

lemma runBoots_never_ap :
    ∀ (n : Nat) (cfg : WebCfg), cfg.wifi_ssid ≠ "" →
    cfg.WifiConfig = 0xAAAA → cfg.old_wifi_ssid.take 32 ≠ "" →
    reachedAp (runBoots (fun _ => false) n cfg) = false := by
  intro n
  induction n with
  | zero =>
    intro cfg h1 h2 h3
    rfl
  | succ n ih =>
    intro cfg h1 h2 h3
    unfold runBoots MnWiFi_begin
    simp only []
    rw [if_neg h1]
    rw [if_pos (show True ∧ cfg.WifiConfig = 0xAAAA from ⟨trivial, h2⟩)]
    simp only []
    apply ih
    · simp only []
      exact h3
    · simp only []
    · simp only []
      exact h3

/-- The stable configuration before the failing proposal. -/
def c2cfg : WebCfg := ⟨0x5555, "Bar", "pw", "OldS", "OldP", "host", "lg", "hp", 0⟩

/-- The credential-change request proposing SSID `"Foo"`. -/
def c2ps : List (String × String) := [("wifiSSID", "Foo"), ("wifiPassword", "")]

set_option maxRecDepth 100000 in
/-- C2 (code bug): proposing credentials that fail to join leaves the device
in TEST_PENDING and reboots; the next boot's join failure takes the rollback
branch, which keeps `WifiConfig = 0xAAAA` (MnWiFi.cpp:116) and reboots again
— and when the restored credentials also fail, every subsequent boot repeats
that same branch, so the device retries STA forever and never reaches
access-point mode, contradicting the claim and the spec. -/
theorem c2_endless_retry_loop :
    (handle_query_wifi c2cfg c2ps false).2.2 = false ∧
    WebEv.reboot ∈ (handle_query_wifi c2cfg c2ps false).2.1 ∧
    (handle_query_wifi c2cfg c2ps false).1.WifiConfig = 0xAAAA ∧
    MnWiFi_begin (handle_query_wifi c2cfg c2ps false).1 false =
      BootResult.reboot
        ⟨0xAAAA, "Bar", "pw", "Bar", "pw", "host", "lg", "hp", 0⟩ ∧
    (∀ n : Nat, reachedAp (runBoots (fun _ => false) n
      (handle_query_wifi c2cfg c2ps false).1) = false) := by
  refine ⟨by decide, by decide, by decide, by decide, ?_⟩
  intro n
  exact runBoots_never_ap n _ (by decide) (by decide) (by decide)

/-- A stable configuration used for the C6 witness. -/
def c6cfg : WebCfg := ⟨0x5555, "Net", "pw2", "o1", "o2", "hh", "lg", "hp", 3⟩

set_option maxRecDepth 100000 in
/-- Witness for the C6 theorem at a concrete proposal whose join fails. -/
theorem c6_witness :
    (handle_query_wifi c6cfg [("wifiSSID", "Foo")] false).2.2 = false := by
  have h := (c6_propose_flow c6cfg [("wifiSSID", "Foo")] false
    (Or.inl (by decide))).1
  rw [h]

end MiNOS
